import Mathlib

/-!
Verification development for the movie-upload AWS Lambda pair
(upload_url_to_canvas.py / poll_canvas_upload.py and their helper modules).

The Python modules are shallowly embedded:

* Python values appearing in the job-parameter and response dictionaries are
  modelled by the inductive type `Val` (strings, integers, None, lists and
  dictionaries).  Dictionaries are association lists keyed by strings.
* Fallible Python code is modelled in the `Except PyExc` monad; `PyExc`
  mirrors the exception classes the modules define, raise and catch
  (plus the builtin KeyError / TypeError / IndexError and a catch-all).
* The remote Canvas HTTP API, the boto3 Lambda dispatch and the callback
  HTTP transport are external collaborators; each remote operation the
  entry points perform is supplied by an environment record
  (`InitEnv` for the initiation module, `PollEnv` for the polling module).
* The polling loop of `poll` runs on explicit fuel; `poll` returns
  `none` only when the modelled run would still be in the loop after
  `fuel` fetches.
-/

set_option autoImplicit false

namespace MovieUpload

/-- Python values stored in parameter / response dictionaries. -/
inductive Val where
  | str (s : String)
  | int (n : Int)
  | none
  | list (xs : List Val)
  | dict (d : List (String × Val))

/-- A Python dictionary with string keys, as an association list.
Insertion order is kept, as in Python dictionaries. -/
abbrev PyDict := List (String × Val)

/-- Exceptions raised by the modules (custom classes from
param_helper.py, canvas_api_helper.py, canvas_api.py,
upload_url_to_canvas.py and poll_canvas_upload.py) together with the
builtin exceptions the code can hit and a catch-all for transport errors. -/
inductive PyExc where
  | missingParameter (msg : Val)
  | parameterType (msg : Val)
  | userNotFound (msg : Val)
  | fileSizeExceedsQuota (msg : Val)
  | canvasUpload (msg : Val)
  | lambdaCall (msg : Val)
  | uploadDelegation (msg : Val)
  | uploadTimeout (msg : Val)
  | keyError (msg : Val)
  | typeError (msg : Val)
  | indexError (msg : Val)
  | other (msg : Val)

/-- Dictionary lookup, as Python `d.get(k)`: `none` models Python None. -/
def pyGet? : PyDict → String → Option Val
  | [], _ => Option.none
  | (k', v) :: rest, k => if k' == k then some v else pyGet? rest k

/-- Non-destructive update, modelling `d2 = d.copy(); d2[k] = v`.
An existing key keeps its position (as in Python); a new key is appended. -/
def pySet : PyDict → String → Val → PyDict
  | [], k, v => [(k, v)]
  | (k', v') :: rest, k, v =>
    if k' == k then (k, v) :: rest else (k', v') :: pySet rest k v

/-- Python `d[k]` on a dictionary: KeyError when the key is absent. -/
def dictGetItem (d : PyDict) (k : String) : Except PyExc Val :=
  match pyGet? d k with
  | some v => .ok v
  | Option.none => .error (.keyError (.str k))

/-- Python `v[k]` with a string index: only dictionaries support it;
any other value raises TypeError. -/
def valGetItem (v : Val) (k : String) : Except PyExc Val :=
  match v with
  | .dict d => dictGetItem d k
  | _ => .error (.typeError (.str "value is not subscriptable by a string key"))

/-- Python `v == lit` for a string literal `lit`: true only for an equal
string; comparisons across types are False in Python. -/
def Val.eqStr : Val → String → Bool
  | .str a, b => a == b
  | _, _ => false

/-- Equality used for dictionary keys (only hashable scalars reach it). -/
def Val.scalarEq : Val → Val → Bool
  | .str a, .str b => a == b
  | .int a, .int b => a == b
  | .none, .none => true
  | _, _ => false

/-- Whether a value may be used as a Python dictionary key. -/
def Val.hashable : Val → Bool
  | .list _ => false
  | .dict _ => false
  | _ => true

/-- Bool-valued substring test on explicit character lists. -/
def strContains (hay needle : String) : Bool :=
  (List.range (hay.length + 1)).any (fun i => needle.toList.isPrefixOf (hay.toList.drop i))

/-- Python `needle in container` for a string literal needle:
substring test on strings, membership on lists, key membership on
dictionaries, TypeError otherwise. -/
def pyInStr (needle : String) : Val → Except PyExc Bool
  | .str s => .ok (strContains s needle)
  | .list xs => .ok (xs.any (fun v => v.eqStr needle))
  | .dict d => .ok (d.any (fun p => p.1 == needle))
  | _ => .error (.typeError (.str "argument of type is not iterable"))

/-- Python `str(v)`; the repr of lists and dictionaries is abbreviated
(no claim inspects it). -/
def Val.pyStr : Val → String
  | .str s => s
  | .int n => toString n
  | .none => "None"
  | .list _ => "<list>"
  | .dict _ => "<dict>"

/-- Models Python `json.dumps` on the embedded values. -/
def json_dumps : Val → String
  | .str s => "\"" ++ s ++ "\""
  | .int n => toString n
  | .none => "null"
  | .list xs => "[" ++ String.intercalate ", " (xs.attach.map (fun x => json_dumps x.1)) ++ "]"
  | .dict d =>
    "\x7b" ++
      String.intercalate ", "
        (d.attach.map (fun p => "\"" ++ p.1.1 ++ "\": " ++ json_dumps p.1.2)) ++
    "\x7d"
  decreasing_by
  · have hx := List.sizeOf_lt_of_mem x.2
    simp only [Val.list.sizeOf_spec]
    omega
  · have hp := List.sizeOf_lt_of_mem p.2
    have : sizeOf p.1.2 < sizeOf p.1 := by
      rcases p with ⟨⟨a, b⟩, hb⟩
      simp only [Prod.mk.sizeOf_spec]
      omega
    simp only [Val.dict.sizeOf_spec]
    omega

/-- Thousands grouping helper: splits a least-significant-first digit
list into groups of three. -/
def chunk3 : List Char → List (List Char)
  | [] => []
  | [a] => [[a]]
  | [a, b] => [[a, b]]
  | a :: b :: c :: rest => [a, b, c] :: chunk3 rest

/-- Models the Python format spec `"\x7b0:,d\x7d".format(n)`:
decimal rendering with commas grouping thousands. -/
def commaFmt (n : Int) : String :=
  let ds := (toString n.natAbs).toList
  let grouped := ((chunk3 ds.reverse).map List.reverse).reverse
  let s := String.mk (List.intercalate [','] grouped)
  if n < 0 then "-" ++ s else s

/-- Exception class name, used by the unexpected-exception reporting. -/
def excTypeName : PyExc → String
  | .missingParameter _ => "MissingParameterException"
  | .parameterType _ => "ParameterTypeException"
  | .userNotFound _ => "UserNotFoundException"
  | .fileSizeExceedsQuota _ => "FileSizeExceedsQuotaException"
  | .canvasUpload _ => "CanvasUploadException"
  | .lambdaCall _ => "LambdaCallException"
  | .uploadDelegation _ => "UploadDelegationException"
  | .uploadTimeout _ => "UploadTimeoutException"
  | .keyError _ => "KeyError"
  | .typeError _ => "TypeError"
  | .indexError _ => "IndexError"
  | .other _ => "Exception"

/-- Payload carried by an exception (`ex.message` in the Python 2 code). -/
def excMsg : PyExc → Val
  | .missingParameter m => m
  | .parameterType m => m
  | .userNotFound m => m
  | .fileSizeExceedsQuota m => m
  | .canvasUpload m => m
  | .lambdaCall m => m
  | .uploadDelegation m => m
  | .uploadTimeout m => m
  | .keyError m => m
  | .typeError m => m
  | .indexError m => m
  | .other m => m

/-- The diagnostic text both entry points build for an unexpected
exception.  The Python code also appends `traceback.format_exc()`; the
traceback text is outside the embedding and is omitted. -/
def excDescription (e : PyExc) : String :=
  "Exception type: " ++ excTypeName e ++ "\n" ++ "Exception: " ++ (excMsg e).pyStr

/-! ### param_helper.py -/

/-- `param_helper.validate`: the named parameter must be present and a
string; otherwise MissingParameterException / ParameterTypeException. -/
def validate (parameter_dictionary : PyDict) (parameter_name : String) :
    Except PyExc String :=
  match pyGet? parameter_dictionary parameter_name with
  | Option.none =>
    .error (.missingParameter (.str ("Missing \"" ++ parameter_name ++ "\" parameter.")))
  | some v =>
    match v with
    | .str s => .ok s
    | _ => .error (.parameterType (.str ("\"" ++ parameter_name ++ "\" parameter is not a string.")))

/-! ### callback_helper.py -/

def STATUS_INITIATED : Int := 0
def STATUS_ERROR : Int := 1
def STATUS_POLLING : Int := 2
def STATUS_PENDING : Int := 3
def STATUS_READY : Int := 4
def STATUS_QUOTA_EXCEEDED : Int := 5

/-- `callback_helper.make_callback_dictionary`: copy of the parameter
dictionary plus the status flag and status message. -/
def make_callback_dictionary (param_dict : PyDict) (status_flag : Int) (status_msg : Val) :
    PyDict :=
  pySet (pySet param_dict "status_flag" (Val.int status_flag)) "status_msg" status_msg

/-- `callback_helper.make_callback_post`.  `callback_url` is the value of
`param_dict.get("callback_url")` at the call site (`Option.none` models
Python None).  `transport` is the outcome of the HTTP POST the external
network would produce (status code, or a raised transport exception);
the source swallows any exception from the POST, so the function never
propagates an error. -/
def make_callback_post (callback_url : Option Val) (param_dict : PyDict)
    (transport : Except PyExc Int) : Except PyExc Unit :=
  match callback_url with
  | some (Val.str s) =>
    if s != "" then
      match param_dict, transport with
      | _, .ok _ => .ok ()
      | _, .error _ => .ok ()
    else .ok ()
  | _ => .ok ()

/-! ### canvas_api_helper.py -/

/-- Builds the `login_id -> id` pairs of the dictionary comprehension in
`find_exact_match_for_login_id`.  A record without the keys raises
KeyError; an unhashable login value raises TypeError (dictionary keys
must be hashable). -/
def buildLoginPairs : List PyDict → Except PyExc (List (Val × Val))
  | [] => .ok []
  | u :: rest => do
    let l ← dictGetItem u "login_id"
    let i ← dictGetItem u "id"
    if l.hashable then
      let ps ← buildLoginPairs rest
      pure ((l, i) :: ps)
    else .error (.typeError (.str "unhashable type"))

/-- Lookup in the comprehension-built dictionary: a later duplicate key
overwrites an earlier one, so the last matching pair wins. -/
def lookupLastVal : List (Val × Val) → Val → Option Val
  | [], _ => Option.none
  | (k', v) :: rest, k =>
    match lookupLastVal rest k with
    | some r => some r
    | Option.none => if k'.scalarEq k then some v else Option.none

/-- `canvas_api_helper.find_exact_match_for_login_id`: filters the user
search results for an exact login match; returns the Canvas id of the
matching user or None. -/
def find_exact_match_for_login_id (search_results : List PyDict)
    (target_login_id : String) : Except PyExc (Option Val) := do
  let pairs ← buildLoginPairs search_results
  pure (lookupLastVal pairs (Val.str target_login_id))

/-- `canvas_api_helper.get_canvas_user_id`.  `search` supplies the result
of the remote `canvas_api.search_users_by_email` call. -/
def get_canvas_user_id (search : String → Except PyExc (List PyDict))
    (user_email : String) : Except PyExc Val := do
  let search_results ← search user_email
  let user_id? ← find_exact_match_for_login_id search_results user_email
  match user_id? with
  | Option.none => .error (.userNotFound (.str ("User " ++ user_email ++ " not found.")))
  | some v =>
    match v with
    | Val.none => .error (.userNotFound (.str ("User " ++ user_email ++ " not found.")))
    | _ => .ok v

/-- `canvas_api_helper.make_quota_exceeded_message`.  `quotaInfo`
supplies the result of the remote `canvas_api.pull_quota_info` call; the
quota figures are formatted with the `,d` spec, which requires
integers. -/
def make_quota_exceeded_message (quotaInfo : Val → Except PyExc PyDict)
    (user_id : Val) : Except PyExc String := do
  let qi ← quotaInfo user_id
  let q ← dictGetItem qi "quota"
  let qu ← dictGetItem qi "quota_used"
  match q, qu with
  | .int a, .int b =>
    .ok ("File size exceeds quota. Quota: " ++ commaFmt a ++ " bytes. Quota used: " ++
      commaFmt b ++ " bytes.")
  | _, _ => .error (.other (.str "ValueError: format requires an integer"))

/-! ### upload_url_to_canvas.py -/

/-- The fields of the boto3 `client.invoke` response the module inspects:
`response["StatusCode"]` and whether
`"x-amz-function-error" in response["ResponseMetadata"]["HTTPHeaders"]`. -/
structure DispatchResp where
  statusCode : Int
  hasErrorHeader : Bool

/-- Rendering of the boto3 response used in the LambdaCallException
messages (`json.dumps(response)`), abbreviated to the modelled fields. -/
def dispatchDumps (r : DispatchResp) : String :=
  "\x7b\"StatusCode\": " ++ toString r.statusCode ++ "\x7d"

/-- Environment of one `initiate_upload` run: outcomes of the remote
calls the run can perform.  `searchResults` is the Canvas user search,
`initResp` the result of `canvas_api.initiate_file_upload_via_url`
(the function performs HTTP requests and may itself raise, e.g.
UploadDelegationException), `quotaInfo` the result of
`canvas_api.pull_quota_info`, `dispatch` the boto3 `invoke` outcome and
`cb` the HTTP transport outcome of a callback POST. -/
structure InitEnv where
  searchResults : String → Except PyExc (List PyDict)
  initResp : Except PyExc PyDict
  quotaInfo : Val → Except PyExc PyDict
  dispatch : Except PyExc DispatchResp
  cb : Except PyExc Int

/-- `initiate_polling`: asynchronously invokes the polling Lambda and,
when the dispatch is accepted, returns the parameter dictionary it sent,
extended with STATUS_POLLING and the status URL; a bad status code or an
error header raises LambdaCallException. -/
def initiate_polling (dispatch : Except PyExc DispatchResp) (lambda_params : PyDict) :
    Except PyExc PyDict := do
  let response ← dispatch
  if 200 ≤ response.statusCode ∧ response.statusCode < 300 then
    if response.hasErrorHeader then
      .error (.lambdaCall (.str ("Lambda call returned x-amz-function-error header: " ++
        dispatchDumps response)))
    else do
      let su ← dictGetItem lambda_params "status_url"
      pure (make_callback_dictionary lambda_params STATUS_POLLING su)
  else
    .error (.lambdaCall (.str ("Lambda call returned bad status code: " ++
      dispatchDumps response ++ " ")))

/-- The three required initiation parameters, unpacked in source order. -/
def unpack3 (param_dict : PyDict) : Except PyExc (String × String × String) := do
  let file_url ← validate param_dict "file_url"
  let display_name ← validate param_dict "file_display_name"
  let user_email ← validate param_dict "user_email"
  pure (file_url, display_name, user_email)

/-- The initiation-response check
`("message" in resp) and (resp["message"] == "file size exceeds quota")`. -/
def quotaMsgHit (resp : PyDict) : Bool :=
  match pyGet? resp "message" with
  | some v => v.eqStr "file size exceeds quota"
  | Option.none => false

/-- Tags an exception with the value the local variable `user_id` holds
at raise time (`Option.none`: not yet assigned), which the
quota-exceeded handler of `initiate_upload` reads. -/
def tagErr {α : Type} (uid : Option Val) : Except PyExc α → Except (PyExc × Option Val) α
  | .ok a => .ok a
  | .error e => .error (e, uid)

/-- The `try` body of `initiate_upload`: validation, user resolution,
upload initiation, response classification, continuation dispatch and
the INITIATED result.  The optional `file_size` hint read from the
parameters only feeds the remote call already captured by `initResp`. -/
def initiate_upload_body (search : String → Except PyExc (List PyDict))
    (initResp : Except PyExc PyDict) (dispatch : Except PyExc DispatchResp)
    (param_dict : PyDict) : Except (PyExc × Option Val) PyDict := do
  let up ← tagErr Option.none (unpack3 param_dict)
  let user_email := up.2.2
  let user_id ← tagErr Option.none (get_canvas_user_id search user_email)
  let resp ← tagErr (some user_id) initResp
  if quotaMsgHit resp then
    throw (PyExc.fileSizeExceedsQuota ((pyGet? resp "message").getD (Val.str "")), some user_id)
  else
    match pyGet? resp "error" with
    | some ev => do
      let hit ← tagErr (some user_id) (pyInStr "file size exceeds quota limits" ev)
      if hit then throw (PyExc.fileSizeExceedsQuota ev, some user_id)
      else throw (PyExc.canvasUpload ev, some user_id)
    | Option.none =>
      match pyGet? resp "progress" with
      | Option.none =>
        throw (PyExc.canvasUpload (Val.str "File upload call did not return a progress object."),
          some user_id)
      | some prog => do
        let hasUrl ← tagErr (some user_id) (pyInStr "url" prog)
        if hasUrl then do
          let status_url ← tagErr (some user_id) (valGetItem prog "url")
          let poll_params := pySet param_dict "status_url" status_url
          let return_dict ← tagErr (some user_id) (initiate_polling dispatch poll_params)
          pure (make_callback_dictionary return_dict STATUS_INITIATED status_url)
        else
          throw (PyExc.canvasUpload (Val.str "File upload call did not return a progress URL."),
            some user_id)

/-- The `except` clauses of `initiate_upload`, in source order: the
quota handler (which fetches fresh quota figures and can itself raise,
propagating past the boundary), the anticipated-exception handler, and
the catch-all that reports and re-raises. -/
def initiate_upload_handler (quotaInfo : Val → Except PyExc PyDict)
    (cbT : Except PyExc Int) (param_dict : PyDict) (callback_url : Option Val) :
    PyExc × Option Val → Except PyExc PyDict
  | (PyExc.fileSizeExceedsQuota _, uid?) =>
    match uid? with
    | Option.none =>
      .error (.other (.str "UnboundLocalError: local variable user_id referenced before assignment"))
    | some uid =>
      match make_quota_exceeded_message quotaInfo uid with
      | .error e => .error e
      | .ok msg => do
        let rd := make_callback_dictionary param_dict STATUS_QUOTA_EXCEEDED (Val.str msg)
        let _ ← make_callback_post callback_url rd cbT
        pure rd
  | (PyExc.missingParameter m, _) | (PyExc.parameterType m, _) | (PyExc.userNotFound m, _)
  | (PyExc.canvasUpload m, _) | (PyExc.lambdaCall m, _) | (PyExc.uploadDelegation m, _) => do
    let rd := make_callback_dictionary param_dict STATUS_ERROR m
    let _ ← make_callback_post callback_url rd cbT
    pure rd
  | (e, _) => do
    let rd := make_callback_dictionary param_dict STATUS_ERROR (Val.str (excDescription e))
    let _ ← make_callback_post callback_url rd cbT
    throw e

/-- `initiate_upload`: the try body wrapped by the handler chain. -/
def initiate_upload (env : InitEnv) (param_dict : PyDict) : Except PyExc PyDict :=
  let callback_url := pyGet? param_dict "callback_url"
  match initiate_upload_body env.searchResults env.initResp env.dispatch param_dict with
  | .ok d => .ok d
  | .error pr => initiate_upload_handler env.quotaInfo env.cb param_dict callback_url pr

/-- `upload_to_canvas`: routes on the presence of a non-empty string
under `status_url`; with one, it calls `initiate_polling` directly
(with no try/except of its own); otherwise it initiates an upload. -/
def upload_to_canvas (env : InitEnv) (param_dict : PyDict) : Except PyExc PyDict :=
  match pyGet? param_dict "status_url" with
  | some (Val.str s) =>
    if s != "" then initiate_polling env.dispatch param_dict
    else initiate_upload env param_dict
  | _ => initiate_upload env param_dict

/-! ### poll_canvas_upload.py -/

def WAIT_INTERVAL : Nat := 15
def MAX_WAIT : Nat := 240

/-- Environment of one `poll` run.  `progress i` is the response of the
i-th `canvas_api.canvas_get(status_url)` fetch; `expired i` tells
whether `time.time() > max_wait_time` held when the budget check after
the i-th fetch ran; `pullFile` is the remote `canvas_api.pull_file`
outcome (a list of file descriptors); `cb` is the callback POST
transport outcome. -/
structure PollEnv where
  progress : Nat → Except PyExc PyDict
  expired : Nat → Bool
  pullFile : Val → Except PyExc (List Val)
  cb : Except PyExc Int

/-- The polling loop of `poll`, on explicit fuel: fetch the progress
resource, fail on a missing `workflow_state` field, leave the loop on
any state outside the nonterminal set of `queued` and `running`, raise
UploadTimeoutException when the budget is exhausted after a nonterminal
fetch, otherwise sleep and refetch.  `Option.none` means the run is
still looping after `fuel` fetches. -/
def pollLoop (progress : Nat → Except PyExc PyDict) (expired : Nat → Bool)
    (status_url : String) : Nat → Nat → Option (Except PyExc (PyDict × Val))
  | 0, _ => Option.none
  | fuel + 1, i =>
    match progress i with
    | .error e => some (.error e)
    | .ok status_resp =>
      match pyGet? status_resp "workflow_state" with
      | Option.none =>
        some (.error (.canvasUpload (.str ("Progress URL " ++ status_url ++
          " missing workflow_state field"))))
      | some ws =>
        if ws.eqStr "queued" || ws.eqStr "running" then
          if expired i then
            some (.error (.uploadTimeout (.str ("File upload still pending after more than " ++
              toString MAX_WAIT ++ " seconds. Status URL: " ++ status_url))))
          else
            pollLoop progress expired status_url fuel (i + 1)
        else
          some (.ok (status_resp, ws))

/-- The descriptor fetch of the completed branch:
`canvas_api.pull_file(status_resp["results"]["id"])[0]` serialized with
`json.dumps`; every step of it can raise. -/
def fetch_descriptor (pullFile : Val → Except PyExc (List Val)) (status_resp : PyDict) :
    Except PyExc String := do
  let results ← dictGetItem status_resp "results"
  let fid ← valGetItem results "id"
  let files ← pullFile fid
  match files with
  | [] => .error (.indexError (.str "list index out of range"))
  | fd :: _ => pure (json_dumps fd)

/-- The post-loop classification of `poll`: completed yields READY (with
a degraded message if the descriptor fetch fails), failed yields ERROR
with the remote message (KeyError if the response carries none), any
other state yields the unknown-workflow-state ERROR. -/
def classify_end_state (pullFile : Val → Except PyExc (List Val))
    (cbT : Except PyExc Int) (param_dict : PyDict) (callback_url : Option Val)
    (status_resp : PyDict) (upload_status : Val) : Except PyExc PyDict := do
  if upload_status.eqStr "completed" then
    let statusMsg : String :=
      match fetch_descriptor pullFile status_resp with
      | .ok s => s
      | .error _ => "Error when trying to retrieve Canvas file descriptor for the upload."
    let rd := make_callback_dictionary param_dict STATUS_READY (Val.str statusMsg)
    let _ ← make_callback_post callback_url rd cbT
    pure rd
  else if upload_status.eqStr "failed" then do
    let err_msg ← dictGetItem status_resp "message"
    let rd := make_callback_dictionary param_dict STATUS_ERROR err_msg
    let _ ← make_callback_post callback_url rd cbT
    pure rd
  else do
    let rd := make_callback_dictionary param_dict STATUS_ERROR
      (Val.str ("Progress URL returned unknown workflow_state of " ++ upload_status.pyStr ++ "."))
    let _ ← make_callback_post callback_url rd cbT
    pure rd

/-- The `except` clauses of `poll`, in source order: timeout becomes
PENDING, the anticipated validation / malformed-response exceptions
become ERROR, and the catch-all reports ERROR and re-raises. -/
def poll_handler (cbT : Except PyExc Int) (param_dict : PyDict)
    (callback_url : Option Val) : PyExc → Except PyExc PyDict
  | PyExc.uploadTimeout m => do
    let rd := make_callback_dictionary param_dict STATUS_PENDING m
    let _ ← make_callback_post callback_url rd cbT
    pure rd
  | PyExc.missingParameter m | PyExc.parameterType m | PyExc.canvasUpload m => do
    let rd := make_callback_dictionary param_dict STATUS_ERROR m
    let _ ← make_callback_post callback_url rd cbT
    pure rd
  | e => do
    let rd := make_callback_dictionary param_dict STATUS_ERROR (Val.str (excDescription e))
    let _ ← make_callback_post callback_url rd cbT
    throw e

/-- `poll`: validates the status URL, runs the polling loop, classifies
the end state, and wraps everything with the handler chain.
`Option.none` means the modelled run needs more than `fuel` fetches. -/
def poll (env : PollEnv) (fuel : Nat) (param_dict : PyDict) :
    Option (Except PyExc PyDict) :=
  let callback_url := pyGet? param_dict "callback_url"
  let body : Option (Except PyExc PyDict) :=
    match validate param_dict "status_url" with
    | .error e => some (.error e)
    | .ok status_url =>
      match pollLoop env.progress env.expired status_url fuel 0 with
      | Option.none => Option.none
      | some (.error e) => some (.error e)
      | some (.ok (status_resp, upload_status)) =>
        some (classify_end_state env.pullFile env.cb param_dict callback_url
          status_resp upload_status)
  match body with
  | Option.none => Option.none
  | some (.ok d) => some (.ok d)
  | some (.error e) => some (poll_handler env.cb param_dict callback_url e)

/-- The exception classes `poll` catches by name (everything else goes
through the report-and-re-raise catch-all). -/
def pollAnticipated : PyExc → Bool
  | PyExc.uploadTimeout _ => true
  | PyExc.missingParameter _ => true
  | PyExc.parameterType _ => true
  | PyExc.canvasUpload _ => true
  | _ => false

/-- A progress fetch that keeps the loop going: a response whose
`workflow_state` is `queued` or `running`. -/
def nonterminalAt (progress : Nat → Except PyExc PyDict) (i : Nat) : Prop :=
  ∃ r w, progress i = .ok r ∧ pyGet? r "workflow_state" = some w ∧
    (w.eqStr "queued" || w.eqStr "running") = true

/-! ### Association-list lemmas -/

theorem pyGet?_pySet_self (d : PyDict) (k : String) (v : Val) :
    pyGet? (pySet d k v) k = some v := by
  induction d with
  | nil => simp [pySet, pyGet?]
  | cons p tl ih =>
    obtain ⟨k', v'⟩ := p
    by_cases h : k' = k
    · simp [pySet, pyGet?, h]
    · simp [pySet, pyGet?, h, ih]

theorem pyGet?_pySet_ne (d : PyDict) (k k' : String) (v : Val) (h : k' ≠ k) :
    pyGet? (pySet d k v) k' = pyGet? d k' := by
  have h' : ¬(k = k') := fun hk => h hk.symm
  induction d with
  | nil => simp [pySet, pyGet?, h']
  | cons p tl ih =>
    obtain ⟨k0, v0⟩ := p
    by_cases h0 : k0 = k
    · subst h0
      simp [pySet, pyGet?, h']
    · simp [pySet, pyGet?, h0, ih]

theorem mkcb_get_flag (d : PyDict) (f : Int) (m : Val) :
    pyGet? (make_callback_dictionary d f m) "status_flag" = some (Val.int f) := by
  unfold make_callback_dictionary
  rw [pyGet?_pySet_ne _ _ _ _ (by decide), pyGet?_pySet_self]

theorem mkcb_get_msg (d : PyDict) (f : Int) (m : Val) :
    pyGet? (make_callback_dictionary d f m) "status_msg" = some m := by
  unfold make_callback_dictionary
  rw [pyGet?_pySet_self]

theorem mkcb_get_other (d : PyDict) (f : Int) (m : Val) (k : String)
    (h1 : k ≠ "status_flag") (h2 : k ≠ "status_msg") :
    pyGet? (make_callback_dictionary d f m) k = pyGet? d k := by
  unfold make_callback_dictionary
  rw [pyGet?_pySet_ne _ _ _ _ h2, pyGet?_pySet_ne _ _ _ _ h1]

theorem mkcb_keeps_keys (d : PyDict) (f : Int) (m : Val) (k : String)
    (h : (pyGet? d k).isSome) :
    (pyGet? (make_callback_dictionary d f m) k).isSome := by
  by_cases h1 : k = "status_flag"
  · subst h1; rw [mkcb_get_flag]; rfl
  · by_cases h2 : k = "status_msg"
    · subst h2; rw [mkcb_get_msg]; rfl
    · rw [mkcb_get_other d f m k h1 h2]; exact h

/-! ### Callback-reporter lemma -/

theorem mcp_ok (u : Option Val) (d : PyDict) (t : Except PyExc Int) :
    make_callback_post u d t = .ok () := by
  unfold make_callback_post
  cases u with
  | none => rfl
  | some v =>
    cases v <;> try rfl
    case str s =>
      by_cases h : s != ""
      · cases t <;> simp [h]
      · simp [h]

/-! ### Except-monad inversion -/

theorem bind_eq_ok {ε α β : Type} {x : Except ε α} {f : α → Except ε β} {b : β}
    (h : x >>= f = .ok b) : ∃ a, x = .ok a ∧ f a = .ok b := by
  cases x with
  | ok a => exact ⟨a, rfl, h⟩
  | error e => exact absurd h (by simp [Bind.bind, Except.bind])

theorem validate_error_class (p : PyDict) (k : String) (e : PyExc)
    (h : validate p k = .error e) :
    (∃ m, e = .missingParameter m) ∨ (∃ m, e = .parameterType m) := by
  unfold validate at h
  cases hg : pyGet? p k with
  | none =>
    rw [hg] at h
    exact Or.inl ⟨_, ((Except.error.injEq _ _).mp h).symm⟩
  | some v =>
    rw [hg] at h
    cases v with
    | str s => simp at h
    | int n => exact Or.inr ⟨_, ((Except.error.injEq _ _).mp h).symm⟩
    | none => exact Or.inr ⟨_, ((Except.error.injEq _ _).mp h).symm⟩
    | list xs => exact Or.inr ⟨_, ((Except.error.injEq _ _).mp h).symm⟩
    | dict d => exact Or.inr ⟨_, ((Except.error.injEq _ _).mp h).symm⟩

theorem unpack3_error_class (p : PyDict) (e : PyExc) (h : unpack3 p = .error e) :
    (∃ m, e = .missingParameter m) ∨ (∃ m, e = .parameterType m) := by
  unfold unpack3 at h
  cases h1 : validate p "file_url" with
  | error e1 =>
    rw [h1] at h
    simp [Bind.bind, Except.bind] at h
    exact h ▸ validate_error_class p "file_url" e1 h1
  | ok a =>
    rw [h1] at h
    simp only [Bind.bind, Except.bind] at h
    cases h2 : validate p "file_display_name" with
    | error e2 =>
      rw [h2] at h
      simp at h
      exact h ▸ validate_error_class p "file_display_name" e2 h2
    | ok b =>
      rw [h2] at h
      simp only at h
      cases h3 : validate p "user_email" with
      | error e3 =>
        rw [h3] at h
        simp at h
        exact h ▸ validate_error_class p "user_email" e3 h3
      | ok c => rw [h3] at h; simp [pure, Except.pure] at h

/-! ### Polling-loop lemmas -/

theorem pollLoop_terminal (progress : Nat → Except PyExc PyDict) (expired : Nat → Bool)
    (su : String) (r : PyDict) (w : Val) :
    ∀ (k i fuel : Nat),
      (∀ j, j < k → nonterminalAt progress (i + j) ∧ expired (i + j) = false) →
      progress (i + k) = .ok r →
      pyGet? r "workflow_state" = some w →
      (w.eqStr "queued" || w.eqStr "running") = false →
      k < fuel →
      pollLoop progress expired su fuel i = some (.ok (r, w)) := by
  intro k
  induction k with
  | zero =>
    intro i fuel _ hk hw hterm hf
    cases fuel with
    | zero => omega
    | succ f =>
      rw [Nat.add_zero] at hk
      simp [pollLoop, hk, hw, hterm]
  | succ k ih =>
    intro i fuel hpre hk hw hterm hf
    cases fuel with
    | zero => omega
    | succ f =>
      obtain ⟨⟨r0, w0, h0, hw0, hnt0⟩, he0⟩ := hpre 0 (by omega)
      rw [Nat.add_zero] at h0
      rw [Nat.add_zero] at he0
      have hstep : pollLoop progress expired su (f + 1) i =
          pollLoop progress expired su f (i + 1) := by
        simp [pollLoop, h0, hw0, hnt0, he0]
      rw [hstep]
      exact ih (i + 1) f
        (fun j hj => by
          have := hpre (j + 1) (by omega)
          rwa [show i + (j + 1) = i + 1 + j by omega] at this)
        (by rwa [show i + 1 + k = i + (k + 1) by omega])
        hw hterm (by omega)

theorem pollLoop_pending (progress : Nat → Except PyExc PyDict) (expired : Nat → Bool)
    (su : String) :
    ∀ (k i fuel : Nat),
      (∀ j, j ≤ k → nonterminalAt progress (i + j)) →
      (∀ j, j < k → expired (i + j) = false) →
      expired (i + k) = true →
      k < fuel →
      pollLoop progress expired su fuel i =
        some (.error (.uploadTimeout (.str ("File upload still pending after more than " ++
          toString MAX_WAIT ++ " seconds. Status URL: " ++ su)))) := by
  intro k
  induction k with
  | zero =>
    intro i fuel hnt _ hek hf
    cases fuel with
    | zero => omega
    | succ f =>
      obtain ⟨r0, w0, h0, hw0, hnt0⟩ := hnt 0 (by omega)
      rw [Nat.add_zero] at h0
      rw [Nat.add_zero] at hek
      simp [pollLoop, h0, hw0, hnt0, hek]
  | succ k ih =>
    intro i fuel hnt hex hek hf
    cases fuel with
    | zero => omega
    | succ f =>
      obtain ⟨r0, w0, h0, hw0, hnt0⟩ := hnt 0 (by omega)
      rw [Nat.add_zero] at h0
      have he0 : expired i = false := by
        have := hex 0 (by omega)
        rwa [Nat.add_zero] at this
      have hstep : pollLoop progress expired su (f + 1) i =
          pollLoop progress expired su f (i + 1) := by
        simp [pollLoop, h0, hw0, hnt0, he0]
      rw [hstep]
      exact ih (i + 1) f
        (fun j hj => by
          have := hnt (j + 1) (by omega)
          rwa [show i + (j + 1) = i + 1 + j by omega] at this)
        (fun j hj => by
          have := hex (j + 1) (by omega)
          rwa [show i + (j + 1) = i + 1 + j by omega] at this)
        (by rwa [show i + 1 + k = i + (k + 1) by omega])
        (by omega)

/-! ### Small monad-reduction lemmas -/

theorem ok_bind {ε α β : Type} (a : α) (f : α → Except ε β) :
    (Except.ok a >>= f) = f a := rfl

theorem error_bind {ε α β : Type} (e : ε) (f : α → Except ε β) :
    ((Except.error e : Except ε α) >>= f) = .error e := rfl

theorem pure_eq_ok {ε α : Type} (a : α) : (pure a : Except ε α) = .ok a := rfl

theorem dictGetItem_of_get (d : PyDict) (k : String) (v : Val)
    (h : pyGet? d k = some v) : dictGetItem d k = .ok v := by
  simp [dictGetItem, h]

theorem dictGetItem_of_none (d : PyDict) (k : String)
    (h : pyGet? d k = Option.none) : dictGetItem d k = .error (.keyError (.str k)) := by
  simp [dictGetItem, h]

/-! ### Classification equations (post-loop block of poll) -/

theorem classify_completed (pf : Val → Except PyExc (List Val)) (cbT : Except PyExc Int)
    (p : PyDict) (cu : Option Val) (r : PyDict) (w : Val) (s : String)
    (h1 : w.eqStr "completed" = true) (h2 : fetch_descriptor pf r = .ok s) :
    classify_end_state pf cbT p cu r w =
      .ok (make_callback_dictionary p STATUS_READY (Val.str s)) := by
  simp [classify_end_state, h1, h2, mcp_ok, ok_bind, pure_eq_ok]

theorem classify_completed_degraded (pf : Val → Except PyExc (List Val))
    (cbT : Except PyExc Int) (p : PyDict) (cu : Option Val) (r : PyDict) (w : Val) (e : PyExc)
    (h1 : w.eqStr "completed" = true) (h2 : fetch_descriptor pf r = .error e) :
    classify_end_state pf cbT p cu r w =
      .ok (make_callback_dictionary p STATUS_READY
        (Val.str "Error when trying to retrieve Canvas file descriptor for the upload.")) := by
  simp [classify_end_state, h1, h2, mcp_ok, ok_bind, pure_eq_ok]

theorem classify_failed (pf : Val → Except PyExc (List Val)) (cbT : Except PyExc Int)
    (p : PyDict) (cu : Option Val) (r : PyDict) (w : Val) (m : Val)
    (h1 : w.eqStr "completed" = false) (h2 : w.eqStr "failed" = true)
    (h3 : pyGet? r "message" = some m) :
    classify_end_state pf cbT p cu r w =
      .ok (make_callback_dictionary p STATUS_ERROR m) := by
  simp [classify_end_state, h1, h2, dictGetItem_of_get r "message" m h3, mcp_ok,
    ok_bind, pure_eq_ok]

theorem classify_failed_nomsg (pf : Val → Except PyExc (List Val)) (cbT : Except PyExc Int)
    (p : PyDict) (cu : Option Val) (r : PyDict) (w : Val)
    (h1 : w.eqStr "completed" = false) (h2 : w.eqStr "failed" = true)
    (h3 : pyGet? r "message" = Option.none) :
    classify_end_state pf cbT p cu r w = .error (.keyError (.str "message")) := by
  simp [classify_end_state, h1, h2, dictGetItem_of_none r "message" h3, error_bind]

theorem classify_unknown (pf : Val → Except PyExc (List Val)) (cbT : Except PyExc Int)
    (p : PyDict) (cu : Option Val) (r : PyDict) (w : Val)
    (h1 : w.eqStr "completed" = false) (h2 : w.eqStr "failed" = false) :
    classify_end_state pf cbT p cu r w =
      .ok (make_callback_dictionary p STATUS_ERROR
        (Val.str ("Progress URL returned unknown workflow_state of " ++ w.pyStr ++ "."))) := by
  simp [classify_end_state, h1, h2, mcp_ok, ok_bind, pure_eq_ok]

theorem classify_ok_shape (pf : Val → Except PyExc (List Val)) (cbT : Except PyExc Int)
    (p : PyDict) (cu : Option Val) (r : PyDict) (w : Val) (d : PyDict)
    (h : classify_end_state pf cbT p cu r w = .ok d) :
    (∃ m, d = make_callback_dictionary p STATUS_READY m) ∨
    (∃ m, d = make_callback_dictionary p STATUS_ERROR m) := by
  by_cases h1 : w.eqStr "completed" = true
  · cases h2 : fetch_descriptor pf r with
    | ok s =>
      rw [classify_completed pf cbT p cu r w s h1 h2] at h
      exact Or.inl ⟨_, ((Except.ok.injEq _ _).mp h).symm⟩
    | error e =>
      rw [classify_completed_degraded pf cbT p cu r w e h1 h2] at h
      exact Or.inl ⟨_, ((Except.ok.injEq _ _).mp h).symm⟩
  · have h1' : w.eqStr "completed" = false := by
      cases hb : w.eqStr "completed" with
      | true => exact absurd hb h1
      | false => rfl
    by_cases h2 : w.eqStr "failed" = true
    · cases h3 : pyGet? r "message" with
      | some m =>
        rw [classify_failed pf cbT p cu r w m h1' h2 h3] at h
        exact Or.inr ⟨_, ((Except.ok.injEq _ _).mp h).symm⟩
      | none =>
        rw [classify_failed_nomsg pf cbT p cu r w h1' h2 h3] at h
        exact absurd h (by simp)
    · have h2' : w.eqStr "failed" = false := by
        cases hb : w.eqStr "failed" with
        | true => exact absurd hb h2
        | false => rfl
      rw [classify_unknown pf cbT p cu r w h1' h2'] at h
      exact Or.inr ⟨_, ((Except.ok.injEq _ _).mp h).symm⟩

/-! ### Handler equations of poll -/

theorem poll_handler_pending (cbT : Except PyExc Int) (p : PyDict) (cu : Option Val) (m : Val) :
    poll_handler cbT p cu (.uploadTimeout m) =
      .ok (make_callback_dictionary p STATUS_PENDING m) := by
  simp [poll_handler, mcp_ok, ok_bind, pure_eq_ok]

theorem poll_handler_anticipated_err (cbT : Except PyExc Int) (p : PyDict) (cu : Option Val)
    (e : PyExc) (h : pollAnticipated e = true) (hn : ∀ m, e ≠ .uploadTimeout m) :
    poll_handler cbT p cu e = .ok (make_callback_dictionary p STATUS_ERROR (excMsg e)) := by
  cases e <;> simp_all [pollAnticipated, poll_handler, excMsg, mcp_ok, ok_bind, pure_eq_ok]

theorem poll_handler_reraise (cbT : Except PyExc Int) (p : PyDict) (cu : Option Val)
    (e : PyExc) (h : pollAnticipated e = false) :
    poll_handler cbT p cu e = .error e := by
  cases e <;> simp_all [pollAnticipated, poll_handler, mcp_ok, ok_bind, throw, throwThe,
    MonadExceptOf.throw]

theorem poll_handler_ok_shape (cbT : Except PyExc Int) (p : PyDict) (cu : Option Val)
    (e : PyExc) (d : PyDict) (h : poll_handler cbT p cu e = .ok d) :
    ∃ f m, d = make_callback_dictionary p f m := by
  cases hb : pollAnticipated e with
  | false => rw [poll_handler_reraise cbT p cu e hb] at h; exact absurd h (by simp)
  | true =>
    cases e <;> simp_all [pollAnticipated]
    case uploadTimeout m =>
      rw [poll_handler_pending] at h
      exact ⟨STATUS_PENDING, m, ((Except.ok.injEq _ _).mp h).symm⟩
    case missingParameter m =>
      rw [poll_handler_anticipated_err cbT p cu _ (by simp [pollAnticipated])
        (by intro m h; cases h)] at h
      exact ⟨STATUS_ERROR, m, ((Except.ok.injEq _ _).mp h).symm⟩
    case parameterType m =>
      rw [poll_handler_anticipated_err cbT p cu _ (by simp [pollAnticipated])
        (by intro m h; cases h)] at h
      exact ⟨STATUS_ERROR, m, ((Except.ok.injEq _ _).mp h).symm⟩
    case canvasUpload m =>
      rw [poll_handler_anticipated_err cbT p cu _ (by simp [pollAnticipated])
        (by intro m h; cases h)] at h
      exact ⟨STATUS_ERROR, m, ((Except.ok.injEq _ _).mp h).symm⟩

theorem poll_handler_error_shape (cbT : Except PyExc Int) (p : PyDict) (cu : Option Val)
    (e e' : PyExc) (h : poll_handler cbT p cu e = .error e') :
    e' = e ∧ pollAnticipated e = false := by
  cases hb : pollAnticipated e with
  | false =>
    rw [poll_handler_reraise cbT p cu e hb] at h
    exact ⟨((Except.error.injEq _ _).mp h).symm, rfl⟩
  | true =>
    cases e <;> simp_all [pollAnticipated]
    case uploadTimeout m => rw [poll_handler_pending] at h; exact absurd h (by simp)
    case missingParameter m =>
      rw [poll_handler_anticipated_err cbT p cu _ (by simp [pollAnticipated])
        (by intro m h; cases h)] at h
      exact absurd h (by simp)
    case parameterType m =>
      rw [poll_handler_anticipated_err cbT p cu _ (by simp [pollAnticipated])
        (by intro m h; cases h)] at h
      exact absurd h (by simp)
    case canvasUpload m =>
      rw [poll_handler_anticipated_err cbT p cu _ (by simp [pollAnticipated])
        (by intro m h; cases h)] at h
      exact absurd h (by simp)

/-! ### User-search lemmas -/

theorem buildLoginPairs_ok (rs : List PyDict)
    (hshape : ∀ u ∈ rs, ∃ l i, pyGet? u "login_id" = some l ∧ pyGet? u "id" = some i ∧
      l.hashable = true) :
    ∃ ps, buildLoginPairs rs = .ok ps ∧
      ∀ q ∈ ps, ∃ u ∈ rs, pyGet? u "login_id" = some q.1 := by
  induction rs with
  | nil => exact ⟨[], rfl, by simp⟩
  | cons u rest ih =>
    obtain ⟨l, i, hl, hi, hh⟩ := hshape u (by simp)
    obtain ⟨ps', hps', hkeys⟩ := ih (fun v hv => hshape v (by simp [hv]))
    refine ⟨(l, i) :: ps', ?_, ?_⟩
    · simp [buildLoginPairs, dictGetItem_of_get u "login_id" l hl,
        dictGetItem_of_get u "id" i hi, hh, hps', ok_bind, pure_eq_ok]
    · intro q hq
      rcases List.mem_cons.mp hq with hq | hq
      · exact ⟨u, by simp, by rw [hq]; exact hl⟩
      · obtain ⟨v, hv, hlv⟩ := hkeys q hq
        exact ⟨v, by simp [hv], hlv⟩

theorem buildLoginPairs_keys (rs : List PyDict) (ps : List (Val × Val))
    (h : buildLoginPairs rs = .ok ps) :
    ∀ q ∈ ps, ∃ u ∈ rs, pyGet? u "login_id" = some q.1 := by
  induction rs generalizing ps with
  | nil =>
    intro q hq
    simp only [buildLoginPairs] at h
    cases ((Except.ok.injEq _ _).mp h).symm ▸ hq
  | cons u rest ih =>
    intro q hq
    simp only [buildLoginPairs] at h
    cases hl : dictGetItem u "login_id" with
    | error e => rw [hl] at h; exact absurd h (by simp [error_bind])
    | ok l =>
      rw [hl] at h
      rw [ok_bind] at h
      cases hi : dictGetItem u "id" with
      | error e => rw [hi] at h; exact absurd h (by simp [error_bind])
      | ok i =>
        rw [hi] at h
        rw [ok_bind] at h
        by_cases hh : l.hashable = true
        · rw [if_pos hh] at h
          cases hps' : buildLoginPairs rest with
          | error e => rw [hps'] at h; exact absurd h (by simp [error_bind])
          | ok ps' =>
            rw [hps', ok_bind, pure_eq_ok] at h
            have hcons : (l, i) :: ps' = ps := (Except.ok.injEq _ _).mp h
            rcases List.mem_cons.mp (hcons ▸ hq) with hq1 | hq1
            · refine ⟨u, by simp, ?_⟩
              rw [hq1]
              have : dictGetItem u "login_id" = .ok l := hl
              simp only [dictGetItem] at this
              cases hget : pyGet? u "login_id" with
              | none => rw [hget] at this; exact absurd this (by simp)
              | some v =>
                rw [hget] at this
                rw [(Except.ok.injEq _ _).mp this]
            · obtain ⟨v, hv, hlv⟩ := ih ps' hps' q hq1
              exact ⟨v, by simp [hv], hlv⟩
        · have hh' : l.hashable = false := by
            cases hb : l.hashable with
            | true => exact absurd hb hh
            | false => rfl
          rw [hh'] at h
          exact absurd h (by simp)

theorem lookupLastVal_none (ps : List (Val × Val)) (k : Val)
    (h : ∀ q ∈ ps, q.1.scalarEq k = false) : lookupLastVal ps k = Option.none := by
  induction ps with
  | nil => rfl
  | cons q rest ih =>
    obtain ⟨k', v⟩ := q
    have htl : lookupLastVal rest k = Option.none := ih (fun q hq => h q (by simp [hq]))
    have hhd : Val.scalarEq k' k = false := h (k', v) (by simp)
    simp [lookupLastVal, htl, hhd]

theorem lookupLastVal_some (ps : List (Val × Val)) (k v : Val)
    (h : lookupLastVal ps k = some v) : ∃ q ∈ ps, q.1.scalarEq k = true := by
  induction ps generalizing v with
  | nil => cases h
  | cons q rest ih =>
    obtain ⟨k', v'⟩ := q
    simp only [lookupLastVal] at h
    cases htl : lookupLastVal rest k with
    | some r =>
      obtain ⟨q, hq, hqe⟩ := ih r htl
      exact ⟨q, by simp [hq], hqe⟩
    | none =>
      rw [htl] at h
      by_cases he : Val.scalarEq k' k = true
      · exact ⟨(k', v'), by simp, he⟩
      · have he' : Val.scalarEq k' k = false := by
          cases hb : Val.scalarEq k' k with
          | true => exact absurd hb he
          | false => rfl
        rw [he'] at h
        cases h

theorem scalarEq_str (l : Val) (s : String) (h : l.scalarEq (Val.str s) = true) :
    l = Val.str s := by
  cases l <;> simp_all [Val.scalarEq]

theorem gcui_not_found (search : String → Except PyExc (List PyDict)) (em : String)
    (rs : List PyDict) (hsr : search em = .ok rs)
    (hshape : ∀ u ∈ rs, ∃ l i, pyGet? u "login_id" = some l ∧ pyGet? u "id" = some i ∧
      l.hashable = true)
    (hnomatch : ∀ u ∈ rs, pyGet? u "login_id" ≠ some (Val.str em)) :
    get_canvas_user_id search em =
      .error (.userNotFound (.str ("User " ++ em ++ " not found."))) := by
  obtain ⟨ps, hps, hkeys⟩ := buildLoginPairs_ok rs hshape
  have hlook : lookupLastVal ps (Val.str em) = Option.none := by
    apply lookupLastVal_none
    intro q hq
    cases hb : Val.scalarEq q.1 (Val.str em) with
    | false => rfl
    | true =>
      obtain ⟨u, hu, hlu⟩ := hkeys q hq
      rw [scalarEq_str q.1 em hb] at hlu
      exact absurd hlu (hnomatch u hu)
  simp [get_canvas_user_id, hsr, find_exact_match_for_login_id, hps, hlook, ok_bind,
    pure_eq_ok]

/-! ### Initiation-side equations -/

theorem tagErr_ok {α : Type} (uid : Option Val) (a : α) :
    tagErr uid (.ok a : Except PyExc α) = .ok a := rfl

theorem tagErr_error {α : Type} (uid : Option Val) (e : PyExc) :
    tagErr uid (.error e : Except PyExc α) = .error (e, uid) := rfl

theorem any_key_of_get (d : PyDict) (k : String) (v : Val) (h : pyGet? d k = some v) :
    (d.any (fun p => p.1 == k)) = true := by
  induction d with
  | nil => cases h
  | cons p rest ih =>
    obtain ⟨k0, v0⟩ := p
    by_cases h0 : k0 = k
    · simp [h0]
    · simp only [pyGet?] at h
      rw [if_neg (by simp [h0])] at h
      simp [h0, ih h]

theorem initiate_polling_accept (dispatch : Except PyExc DispatchResp) (dr : DispatchResp)
    (lp : PyDict) (su : Val) (hd : dispatch = .ok dr)
    (h1 : 200 ≤ dr.statusCode) (h2 : dr.statusCode < 300) (h3 : dr.hasErrorHeader = false)
    (hsu : pyGet? lp "status_url" = some su) :
    initiate_polling dispatch lp = .ok (make_callback_dictionary lp STATUS_POLLING su) := by
  unfold initiate_polling
  rw [hd, ok_bind, if_pos ⟨h1, h2⟩, if_neg (by simp [h3]),
    dictGetItem_of_get lp "status_url" su hsu, ok_bind, pure_eq_ok]

theorem initiate_polling_badstatus (dispatch : Except PyExc DispatchResp) (dr : DispatchResp)
    (lp : PyDict) (hd : dispatch = .ok dr)
    (h : ¬(200 ≤ dr.statusCode ∧ dr.statusCode < 300)) :
    initiate_polling dispatch lp =
      .error (.lambdaCall (.str ("Lambda call returned bad status code: " ++
        dispatchDumps dr ++ " "))) := by
  unfold initiate_polling
  rw [hd, ok_bind, if_neg h]

theorem initiate_polling_errheader (dispatch : Except PyExc DispatchResp) (dr : DispatchResp)
    (lp : PyDict) (hd : dispatch = .ok dr)
    (h1 : 200 ≤ dr.statusCode) (h2 : dr.statusCode < 300) (h3 : dr.hasErrorHeader = true) :
    initiate_polling dispatch lp =
      .error (.lambdaCall (.str ("Lambda call returned x-amz-function-error header: " ++
        dispatchDumps dr))) := by
  unfold initiate_polling
  rw [hd, ok_bind, if_pos ⟨h1, h2⟩, if_pos (by simp [h3])]

theorem init_handler_plain_err (quotaInfo : Val → Except PyExc PyDict)
    (cbT : Except PyExc Int) (p : PyDict) (cu : Option Val) (e : PyExc) (uid? : Option Val)
    (he : (∃ m, e = .missingParameter m) ∨ (∃ m, e = .parameterType m) ∨
      (∃ m, e = .userNotFound m) ∨ (∃ m, e = .canvasUpload m) ∨
      (∃ m, e = .lambdaCall m) ∨ (∃ m, e = .uploadDelegation m)) :
    initiate_upload_handler quotaInfo cbT p cu (e, uid?) =
      .ok (make_callback_dictionary p STATUS_ERROR (excMsg e)) := by
  rcases he with ⟨m, rfl⟩ | ⟨m, rfl⟩ | ⟨m, rfl⟩ | ⟨m, rfl⟩ | ⟨m, rfl⟩ | ⟨m, rfl⟩ <;>
    simp [initiate_upload_handler, excMsg, mcp_ok, ok_bind, pure_eq_ok]

theorem init_handler_quota (quotaInfo : Val → Except PyExc PyDict)
    (cbT : Except PyExc Int) (p : PyDict) (cu : Option Val) (m : Val) (uid : Val) (msg : String)
    (hq : make_quota_exceeded_message quotaInfo uid = .ok msg) :
    initiate_upload_handler quotaInfo cbT p cu (.fileSizeExceedsQuota m, some uid) =
      .ok (make_callback_dictionary p STATUS_QUOTA_EXCEEDED (Val.str msg)) := by
  simp [initiate_upload_handler, hq, mcp_ok, ok_bind, pure_eq_ok]

theorem init_handler_quota_fail (quotaInfo : Val → Except PyExc PyDict)
    (cbT : Except PyExc Int) (p : PyDict) (cu : Option Val) (m : Val) (uid : Val) (e : PyExc)
    (hq : make_quota_exceeded_message quotaInfo uid = .error e) :
    initiate_upload_handler quotaInfo cbT p cu (.fileSizeExceedsQuota m, some uid) =
      .error e := by
  simp [initiate_upload_handler, hq]

theorem init_handler_ok_shape (quotaInfo : Val → Except PyExc PyDict)
    (cbT : Except PyExc Int) (p : PyDict) (cu : Option Val) (pr : PyExc × Option Val)
    (d : PyDict) (h : initiate_upload_handler quotaInfo cbT p cu pr = .ok d) :
    ∃ f m, d = make_callback_dictionary p f m := by
  obtain ⟨e, uid?⟩ := pr
  cases e with
  | fileSizeExceedsQuota m =>
    cases uid? with
    | none => exact absurd h (by simp [initiate_upload_handler])
    | some uid =>
      cases hq : make_quota_exceeded_message quotaInfo uid with
      | error e' =>
        rw [init_handler_quota_fail quotaInfo cbT p cu m uid e' hq] at h
        exact absurd h (by simp)
      | ok msg =>
        rw [init_handler_quota quotaInfo cbT p cu m uid msg hq] at h
        exact ⟨STATUS_QUOTA_EXCEEDED, _, ((Except.ok.injEq _ _).mp h).symm⟩
  | missingParameter m =>
    rw [init_handler_plain_err _ _ _ _ _ _ (Or.inl ⟨m, rfl⟩)] at h
    exact ⟨STATUS_ERROR, _, ((Except.ok.injEq _ _).mp h).symm⟩
  | parameterType m =>
    rw [init_handler_plain_err _ _ _ _ _ _ (Or.inr (Or.inl ⟨m, rfl⟩))] at h
    exact ⟨STATUS_ERROR, _, ((Except.ok.injEq _ _).mp h).symm⟩
  | userNotFound m =>
    rw [init_handler_plain_err _ _ _ _ _ _ (Or.inr (Or.inr (Or.inl ⟨m, rfl⟩)))] at h
    exact ⟨STATUS_ERROR, _, ((Except.ok.injEq _ _).mp h).symm⟩
  | canvasUpload m =>
    rw [init_handler_plain_err _ _ _ _ _ _ (Or.inr (Or.inr (Or.inr (Or.inl ⟨m, rfl⟩))))] at h
    exact ⟨STATUS_ERROR, _, ((Except.ok.injEq _ _).mp h).symm⟩
  | lambdaCall m =>
    rw [init_handler_plain_err _ _ _ _ _ _
      (Or.inr (Or.inr (Or.inr (Or.inr (Or.inl ⟨m, rfl⟩)))))] at h
    exact ⟨STATUS_ERROR, _, ((Except.ok.injEq _ _).mp h).symm⟩
  | uploadDelegation m =>
    rw [init_handler_plain_err _ _ _ _ _ _
      (Or.inr (Or.inr (Or.inr (Or.inr (Or.inr ⟨m, rfl⟩)))))] at h
    exact ⟨STATUS_ERROR, _, ((Except.ok.injEq _ _).mp h).symm⟩
  | uploadTimeout m =>
    simp only [initiate_upload_handler, mcp_ok, ok_bind] at h
    exact absurd h (by simp [throw, throwThe, MonadExceptOf.throw])
  | keyError m =>
    simp only [initiate_upload_handler, mcp_ok, ok_bind] at h
    exact absurd h (by simp [throw, throwThe, MonadExceptOf.throw])
  | typeError m =>
    simp only [initiate_upload_handler, mcp_ok, ok_bind] at h
    exact absurd h (by simp [throw, throwThe, MonadExceptOf.throw])
  | indexError m =>
    simp only [initiate_upload_handler, mcp_ok, ok_bind] at h
    exact absurd h (by simp [throw, throwThe, MonadExceptOf.throw])
  | other m =>
    simp only [initiate_upload_handler, mcp_ok, ok_bind] at h
    exact absurd h (by simp [throw, throwThe, MonadExceptOf.throw])

theorem body_validation_error (search : String → Except PyExc (List PyDict))
    (initResp : Except PyExc PyDict) (dispatch : Except PyExc DispatchResp)
    (p : PyDict) (e : PyExc) (h : unpack3 p = .error e) :
    initiate_upload_body search initResp dispatch p = .error (e, Option.none) := by
  unfold initiate_upload_body
  rw [h, tagErr_error, error_bind]

theorem body_user_error (search : String → Except PyExc (List PyDict))
    (initResp : Except PyExc PyDict) (dispatch : Except PyExc DispatchResp)
    (p : PyDict) (fu dn em : String) (e : PyExc)
    (hy : unpack3 p = .ok (fu, dn, em))
    (hg : get_canvas_user_id search em = .error e) :
    initiate_upload_body search initResp dispatch p = .error (e, Option.none) := by
  unfold initiate_upload_body
  rw [hy, tagErr_ok, ok_bind]
  simp only [hg, tagErr_error, error_bind]

theorem body_quota_msg (search : String → Except PyExc (List PyDict))
    (initResp : Except PyExc PyDict) (dispatch : Except PyExc DispatchResp)
    (p : PyDict) (fu dn em : String) (uid : Val) (resp : PyDict)
    (hy : unpack3 p = .ok (fu, dn, em))
    (hg : get_canvas_user_id search em = .ok uid)
    (hr : initResp = .ok resp)
    (hm : quotaMsgHit resp = true) :
    initiate_upload_body search initResp dispatch p =
      .error (.fileSizeExceedsQuota ((pyGet? resp "message").getD (Val.str "")), some uid) := by
  unfold initiate_upload_body
  rw [hy, tagErr_ok, ok_bind]
  simp only [hg, tagErr_ok, ok_bind, hr, hm, if_true, throw, throwThe, MonadExceptOf.throw]

theorem body_quota_err (search : String → Except PyExc (List PyDict))
    (initResp : Except PyExc PyDict) (dispatch : Except PyExc DispatchResp)
    (p : PyDict) (fu dn em : String) (uid : Val) (resp : PyDict) (ev : Val)
    (hy : unpack3 p = .ok (fu, dn, em))
    (hg : get_canvas_user_id search em = .ok uid)
    (hr : initResp = .ok resp)
    (hm : quotaMsgHit resp = false)
    (herr : pyGet? resp "error" = some ev)
    (hin : pyInStr "file size exceeds quota limits" ev = .ok true) :
    initiate_upload_body search initResp dispatch p =
      .error (.fileSizeExceedsQuota ev, some uid) := by
  unfold initiate_upload_body
  rw [hy, tagErr_ok, ok_bind]
  simp only [hg, tagErr_ok, ok_bind, hr, hm, Bool.false_eq_true, if_false, herr, hin,
    if_true, throw, throwThe, MonadExceptOf.throw]

theorem body_success_generic (search : String → Except PyExc (List PyDict))
    (initResp : Except PyExc PyDict) (dispatch : Except PyExc DispatchResp)
    (p : PyDict) (fu dn em : String) (uid : Val) (resp : PyDict) (pd : PyDict) (suv : Val)
    (hy : unpack3 p = .ok (fu, dn, em))
    (hg : get_canvas_user_id search em = .ok uid)
    (hr : initResp = .ok resp)
    (hm : quotaMsgHit resp = false)
    (herr : pyGet? resp "error" = Option.none)
    (hprog : pyGet? resp "progress" = some (Val.dict pd))
    (hpurl : pyGet? pd "url" = some suv) :
    initiate_upload_body search initResp dispatch p =
      tagErr (some uid) (initiate_polling dispatch (pySet p "status_url" suv)) >>=
        fun return_dict => pure (make_callback_dictionary return_dict STATUS_INITIATED suv) := by
  unfold initiate_upload_body
  rw [hy, tagErr_ok, ok_bind]
  simp only [hg, tagErr_ok, ok_bind, hr, hm, Bool.false_eq_true, if_false, herr, hprog,
    pyInStr, any_key_of_get pd "url" suv hpurl, if_true, valGetItem,
    dictGetItem_of_get pd "url" suv hpurl]

theorem validate_of_get (p : PyDict) (k : String) (s : String)
    (h : pyGet? p k = some (Val.str s)) : validate p k = .ok s := by
  simp [validate, h]

theorem poll_validation_error (env : PollEnv) (fuel : Nat) (p : PyDict) (e : PyExc)
    (hv : validate p "status_url" = .error e) :
    poll env fuel p = some (poll_handler env.cb p (pyGet? p "callback_url") e) := by
  simp [poll, hv]

theorem poll_terminal_eq (env : PollEnv) (fuel : Nat) (p : PyDict) (su : String)
    (r : PyDict) (w : Val) (d : PyDict)
    (hsu : pyGet? p "status_url" = some (Val.str su))
    (hl : pollLoop env.progress env.expired su fuel 0 = some (.ok (r, w)))
    (hc : classify_end_state env.pullFile env.cb p (pyGet? p "callback_url") r w = .ok d) :
    poll env fuel p = some (.ok d) := by
  simp [poll, validate_of_get p "status_url" su hsu, hl, hc]

theorem poll_terminal_err_eq (env : PollEnv) (fuel : Nat) (p : PyDict) (su : String)
    (r : PyDict) (w : Val) (e : PyExc)
    (hsu : pyGet? p "status_url" = some (Val.str su))
    (hl : pollLoop env.progress env.expired su fuel 0 = some (.ok (r, w)))
    (hc : classify_end_state env.pullFile env.cb p (pyGet? p "callback_url") r w = .error e) :
    poll env fuel p = some (poll_handler env.cb p (pyGet? p "callback_url") e) := by
  simp [poll, validate_of_get p "status_url" su hsu, hl, hc]

theorem poll_loop_error_eq (env : PollEnv) (fuel : Nat) (p : PyDict) (su : String) (e : PyExc)
    (hsu : pyGet? p "status_url" = some (Val.str su))
    (hl : pollLoop env.progress env.expired su fuel 0 = some (.error e)) :
    poll env fuel p = some (poll_handler env.cb p (pyGet? p "callback_url") e) := by
  simp [poll, validate_of_get p "status_url" su hsu, hl]

theorem poll_some_shape (env : PollEnv) (fuel : Nat) (p : PyDict)
    (x : Except PyExc PyDict) (h : poll env fuel p = some x) :
    (∃ d, x = .ok d ∧ ∃ f m, d = make_callback_dictionary p f m) ∨
    (∃ e, x = .error e ∧ pollAnticipated e = false) := by
  unfold poll at h
  cases hv : validate p "status_url" with
  | error e =>
    rw [hv] at h
    simp only [Option.some.injEq] at h
    cases hx : poll_handler env.cb p (pyGet? p "callback_url") e with
    | ok d =>
      rw [hx] at h
      exact Or.inl ⟨d, h.symm, poll_handler_ok_shape _ _ _ _ _ hx⟩
    | error e' =>
      rw [hx] at h
      obtain ⟨he', hant⟩ := poll_handler_error_shape _ _ _ _ _ hx
      exact Or.inr ⟨e', h.symm, he' ▸ hant⟩
  | ok su =>
    rw [hv] at h
    simp only [] at h
    cases hl : pollLoop env.progress env.expired su fuel 0 with
    | none => rw [hl] at h; cases h
    | some y =>
      rw [hl] at h
      cases y with
      | ok rw0 =>
        obtain ⟨r, w⟩ := rw0
        simp only at h
        cases hc : classify_end_state env.pullFile env.cb p (pyGet? p "callback_url") r w with
        | ok d =>
          rw [hc] at h
          simp only [Option.some.injEq] at h
          exact Or.inl ⟨d, h.symm, by
            rcases classify_ok_shape _ _ _ _ _ _ _ hc with ⟨m, hm⟩ | ⟨m, hm⟩
            · exact ⟨STATUS_READY, m, hm⟩
            · exact ⟨STATUS_ERROR, m, hm⟩⟩
        | error e =>
          rw [hc] at h
          simp only [Option.some.injEq] at h
          cases hx : poll_handler env.cb p (pyGet? p "callback_url") e with
          | ok d =>
            rw [hx] at h
            exact Or.inl ⟨d, h.symm, poll_handler_ok_shape _ _ _ _ _ hx⟩
          | error e' =>
            rw [hx] at h
            obtain ⟨he', hant⟩ := poll_handler_error_shape _ _ _ _ _ hx
            exact Or.inr ⟨e', h.symm, he' ▸ hant⟩
      | error e =>
        simp only [Option.some.injEq] at h
        cases hx : poll_handler env.cb p (pyGet? p "callback_url") e with
        | ok d =>
          rw [hx] at h
          exact Or.inl ⟨d, h.symm, poll_handler_ok_shape _ _ _ _ _ hx⟩
        | error e' =>
          rw [hx] at h
          obtain ⟨he', hant⟩ := poll_handler_error_shape _ _ _ _ _ hx
          exact Or.inr ⟨e', h.symm, he' ▸ hant⟩

theorem body_ok_shape (search : String → Except PyExc (List PyDict))
    (initResp : Except PyExc PyDict) (dispatch : Except PyExc DispatchResp)
    (p : PyDict) (d : PyDict)
    (h : initiate_upload_body search initResp dispatch p = .ok d) :
    ∃ d0 su, d = make_callback_dictionary d0 STATUS_INITIATED su := by
  unfold initiate_upload_body at h
  obtain ⟨up, _, h⟩ := bind_eq_ok h
  simp only at h
  obtain ⟨uid, _, h⟩ := bind_eq_ok h
  obtain ⟨resp, _, h⟩ := bind_eq_ok h
  by_cases hm : quotaMsgHit resp = true
  · rw [if_pos hm] at h
    exact absurd h (by simp [throw, throwThe, MonadExceptOf.throw])
  · rw [if_neg hm] at h
    cases herr : pyGet? resp "error" with
    | some ev =>
      rw [herr] at h
      simp only at h
      obtain ⟨hit, _, h⟩ := bind_eq_ok h
      by_cases hh : hit = true
      · rw [if_pos hh] at h
        exact absurd h (by simp [throw, throwThe, MonadExceptOf.throw])
      · rw [if_neg hh] at h
        exact absurd h (by simp [throw, throwThe, MonadExceptOf.throw])
    | none =>
      rw [herr] at h
      simp only at h
      cases hprog : pyGet? resp "progress" with
      | none =>
        rw [hprog] at h
        exact absurd h (by simp [throw, throwThe, MonadExceptOf.throw])
      | some prog =>
        rw [hprog] at h
        simp only at h
        obtain ⟨hasUrl, _, h⟩ := bind_eq_ok h
        by_cases hh : hasUrl = true
        · rw [if_pos hh] at h
          obtain ⟨suv, _, h⟩ := bind_eq_ok h
          obtain ⟨rd, _, h⟩ := bind_eq_ok h
          exact ⟨rd, suv, ((Except.ok.injEq _ _).mp h).symm⟩
        · rw [if_neg hh] at h
          exact absurd h (by simp [throw, throwThe, MonadExceptOf.throw])

/-! ## Claims -/

/-- C1 (amended): for every JobParameters mapping containing a non-empty
string under `status_url`, `upload_to_canvas` delegates to
`initiate_polling`, which asynchronously dispatches the Poller
invocation; on accepted dispatch it returns the original mapping plus
`status_flag = STATUS_POLLING` and `status_msg` = the stored progress
reference.  The Poller's own `poll` result is not returned
synchronously. -/
theorem C1_delegation_via_async_dispatch (env : InitEnv) (p : PyDict) (s : String)
    (h : pyGet? p "status_url" = some (Val.str s)) (hne : s ≠ "") :
    upload_to_canvas env p = initiate_polling env.dispatch p ∧
    (∀ dr : DispatchResp, env.dispatch = .ok dr → 200 ≤ dr.statusCode →
      dr.statusCode < 300 → dr.hasErrorHeader = false →
      upload_to_canvas env p =
        .ok (make_callback_dictionary p STATUS_POLLING (Val.str s))) := by
  have hroute : upload_to_canvas env p = initiate_polling env.dispatch p := by
    unfold upload_to_canvas
    rw [h]
    simp [hne]
  refine ⟨hroute, fun dr hd h1 h2 h3 => ?_⟩
  rw [hroute, initiate_polling_accept env.dispatch dr p (Val.str s) hd h1 h2 h3 h]

/-- C1 witness: a concrete delegation run with an accepted dispatch. -/
theorem C1_delegation_via_async_dispatch_witness :
    upload_to_canvas
        ⟨fun _ => .ok [], .ok [], fun _ => .ok [], .ok ⟨202, false⟩, .ok 200⟩
        [("status_url", Val.str "https://stat")] =
      .ok (make_callback_dictionary [("status_url", Val.str "https://stat")]
        STATUS_POLLING (Val.str "https://stat")) :=
  (C1_delegation_via_async_dispatch
    ⟨fun _ => .ok [], .ok [], fun _ => .ok [], .ok ⟨202, false⟩, .ok 200⟩
    [("status_url", Val.str "https://stat")] "https://stat" rfl (by decide)).2
    ⟨202, false⟩ rfl (by decide) (by decide) rfl

/-- C1 counterexample: with the progress URL reporting a completed
upload, the Orchestrator returns a POLLING mapping while the Poller on
the same parameters returns a READY mapping, so the Orchestrator does
not return the result of `poll` unchanged. -/
theorem C1_counterexample :
    upload_to_canvas
        ⟨fun _ => .ok [], .ok [], fun _ => .ok [], .ok ⟨202, false⟩, .ok 200⟩
        [("status_url", Val.str "https://stat")] =
      .ok [("status_url", Val.str "https://stat"), ("status_flag", Val.int 2),
        ("status_msg", Val.str "https://stat")] ∧
    poll
        ⟨fun _ => .ok [("workflow_state", Val.str "completed"),
          ("results", Val.dict [("id", Val.int 7)])], fun _ => true,
          fun _ => .ok [Val.dict [("id", Val.int 7)]], .ok 200⟩ 1
        [("status_url", Val.str "https://stat")] =
      some (.ok [("status_url", Val.str "https://stat"), ("status_flag", Val.int 4),
        ("status_msg", Val.str (json_dumps (Val.dict [("id", Val.int 7)])))]) ∧
    ([("status_url", Val.str "https://stat"), ("status_flag", Val.int 2),
        ("status_msg", Val.str "https://stat")] : PyDict) ≠
      [("status_url", Val.str "https://stat"), ("status_flag", Val.int 4),
        ("status_msg", Val.str (json_dumps (Val.dict [("id", Val.int 7)])))] := by
  refine ⟨rfl, rfl, ?_⟩
  have c2 : pyGet? [("status_url", Val.str "https://stat"), ("status_flag", Val.int 2),
      ("status_msg", Val.str "https://stat")] "status_flag" = some (Val.int 2) := rfl
  have c4 : pyGet? [("status_url", Val.str "https://stat"), ("status_flag", Val.int 4),
      ("status_msg", Val.str (json_dumps (Val.dict [("id", Val.int 7)])))] "status_flag" =
      some (Val.int 4) := rfl
  intro h
  rw [h, c4] at c2
  injection c2 with c5
  injection c5 with c6
  exact absurd c6 (by decide)

/-- C2 (amended): on a validated, user-resolved initiation run whose
response yields a progress URL, the outcome is INITIATED carrying the
progress URL as `status_msg` when the Async Job Dispatcher accepts the
dispatch; when the dispatcher rejects it (bad status code or error
header), the outcome is instead ERROR carrying the dispatch-failure
message. -/
theorem C2_initiated_only_on_accepted_dispatch (env : InitEnv) (p : PyDict)
    (fu dn em : String) (uid : Val) (resp pd : PyDict) (suv : Val) (dr : DispatchResp)
    (hy : unpack3 p = .ok (fu, dn, em))
    (hg : get_canvas_user_id env.searchResults em = .ok uid)
    (hr : env.initResp = .ok resp)
    (hm : quotaMsgHit resp = false)
    (herr : pyGet? resp "error" = Option.none)
    (hprog : pyGet? resp "progress" = some (Val.dict pd))
    (hpurl : pyGet? pd "url" = some suv)
    (hd : env.dispatch = .ok dr) :
    (200 ≤ dr.statusCode → dr.statusCode < 300 → dr.hasErrorHeader = false →
      initiate_upload env p =
        .ok (make_callback_dictionary
          (make_callback_dictionary (pySet p "status_url" suv) STATUS_POLLING suv)
          STATUS_INITIATED suv)) ∧
    (¬(200 ≤ dr.statusCode ∧ dr.statusCode < 300) →
      initiate_upload env p =
        .ok (make_callback_dictionary p STATUS_ERROR
          (Val.str ("Lambda call returned bad status code: " ++ dispatchDumps dr ++ " ")))) ∧
    (200 ≤ dr.statusCode → dr.statusCode < 300 → dr.hasErrorHeader = true →
      initiate_upload env p =
        .ok (make_callback_dictionary p STATUS_ERROR
          (Val.str ("Lambda call returned x-amz-function-error header: " ++
            dispatchDumps dr)))) := by
  have hbody := body_success_generic env.searchResults env.initResp env.dispatch p
    fu dn em uid resp pd suv hy hg hr hm herr hprog hpurl
  refine ⟨fun h1 h2 h3 => ?_, fun hbad => ?_, fun h1 h2 h3 => ?_⟩
  · have hpoll := initiate_polling_accept env.dispatch dr (pySet p "status_url" suv) suv
      hd h1 h2 h3 (pyGet?_pySet_self p "status_url" suv)
    simp only [initiate_upload, hbody, hpoll, tagErr_ok, ok_bind, pure_eq_ok]
  · have hpoll := initiate_polling_badstatus env.dispatch dr (pySet p "status_url" suv) hd hbad
    simp only [initiate_upload, hbody, hpoll, tagErr_error, error_bind]
    exact init_handler_plain_err env.quotaInfo env.cb p (pyGet? p "callback_url") _ _
      (Or.inr (Or.inr (Or.inr (Or.inr (Or.inl ⟨_, rfl⟩)))))
  · have hpoll := initiate_polling_errheader env.dispatch dr (pySet p "status_url" suv)
      hd h1 h2 h3
    simp only [initiate_upload, hbody, hpoll, tagErr_error, error_bind]
    exact init_handler_plain_err env.quotaInfo env.cb p (pyGet? p "callback_url") _ _
      (Or.inr (Or.inr (Or.inr (Or.inr (Or.inl ⟨_, rfl⟩)))))

/-- C2 witness: a concrete accepted-dispatch run producing INITIATED. -/
theorem C2_initiated_only_on_accepted_dispatch_witness :
    initiate_upload
        ⟨fun _ => .ok [[("login_id", Val.str "a@b.com"), ("id", Val.int 3)]],
          .ok [("progress", Val.dict [("url", Val.str "https://prog")])],
          fun _ => .ok [], .ok ⟨202, false⟩, .ok 200⟩
        [("file_url", Val.str "http://f"), ("file_display_name", Val.str "clip.mp4"),
          ("user_email", Val.str "a@b.com")] =
      .ok (make_callback_dictionary
        (make_callback_dictionary
          (pySet [("file_url", Val.str "http://f"), ("file_display_name", Val.str "clip.mp4"),
            ("user_email", Val.str "a@b.com")] "status_url" (Val.str "https://prog"))
          STATUS_POLLING (Val.str "https://prog"))
        STATUS_INITIATED (Val.str "https://prog")) :=
  (C2_initiated_only_on_accepted_dispatch
    ⟨fun _ => .ok [[("login_id", Val.str "a@b.com"), ("id", Val.int 3)]],
      .ok [("progress", Val.dict [("url", Val.str "https://prog")])],
      fun _ => .ok [], .ok ⟨202, false⟩, .ok 200⟩
    [("file_url", Val.str "http://f"), ("file_display_name", Val.str "clip.mp4"),
      ("user_email", Val.str "a@b.com")]
    "http://f" "clip.mp4" "a@b.com" (Val.int 3)
    [("progress", Val.dict [("url", Val.str "https://prog")])]
    [("url", Val.str "https://prog")] (Val.str "https://prog") ⟨202, false⟩
    rfl rfl rfl rfl rfl rfl rfl rfl).1 (by decide) (by decide) rfl

/-- C2 counterexample: an otherwise fully successful initiation run with
a rejected dispatch (status code 500) produces ERROR, not INITIATED. -/
theorem C2_counterexample :
    initiate_upload
        ⟨fun _ => .ok [[("login_id", Val.str "a@b.com"), ("id", Val.int 3)]],
          .ok [("progress", Val.dict [("url", Val.str "https://prog")])],
          fun _ => .ok [], .ok ⟨500, false⟩, .ok 200⟩
        [("file_url", Val.str "http://f"), ("file_display_name", Val.str "clip.mp4"),
          ("user_email", Val.str "a@b.com")] =
      .ok [("file_url", Val.str "http://f"), ("file_display_name", Val.str "clip.mp4"),
        ("user_email", Val.str "a@b.com"), ("status_flag", Val.int 1),
        ("status_msg",
          Val.str "Lambda call returned bad status code: \x7b\"StatusCode\": 500\x7d ")] ∧
    pyGet? [("file_url", Val.str "http://f"), ("file_display_name", Val.str "clip.mp4"),
        ("user_email", Val.str "a@b.com"), ("status_flag", Val.int 1),
        ("status_msg",
          Val.str "Lambda call returned bad status code: \x7b\"StatusCode\": 500\x7d ")]
      "status_flag" = some (Val.int STATUS_ERROR) ∧
    STATUS_ERROR ≠ STATUS_INITIATED := by
  exact ⟨rfl, rfl, by decide⟩

/-- C3: a poll run observing workflow states queued, running, completed
within the wait budget yields READY with the serialized file descriptor
as `status_msg`; a run whose fetches stay in the nonterminal set until
the budget elapses yields PENDING (not ERROR) with a message stating how
long it waited. -/
theorem C3_ready_within_budget_pending_on_timeout
    (p : PyDict) (su : String) (hsu : pyGet? p "status_url" = some (Val.str su))
    (env1 : PollEnv) (r0 r1 r2 resd : PyDict) (fid fd : Val) (rest : List Val) (fuel1 : Nat)
    (h0 : env1.progress 0 = .ok r0)
    (hw0 : pyGet? r0 "workflow_state" = some (Val.str "queued"))
    (h1 : env1.progress 1 = .ok r1)
    (hw1 : pyGet? r1 "workflow_state" = some (Val.str "running"))
    (he0 : env1.expired 0 = false) (he1 : env1.expired 1 = false)
    (h2 : env1.progress 2 = .ok r2)
    (hw2 : pyGet? r2 "workflow_state" = some (Val.str "completed"))
    (hres : pyGet? r2 "results" = some (Val.dict resd))
    (hid : pyGet? resd "id" = some fid)
    (hpf : env1.pullFile fid = .ok (fd :: rest))
    (hf1 : 2 < fuel1)
    (env2 : PollEnv) (k fuel2 : Nat)
    (hnt : ∀ j, j ≤ k → nonterminalAt env2.progress j)
    (hex : ∀ j, j < k → env2.expired j = false)
    (hek : env2.expired k = true) (hf2 : k < fuel2) :
    poll env1 fuel1 p =
      some (.ok (make_callback_dictionary p STATUS_READY (Val.str (json_dumps fd)))) ∧
    poll env2 fuel2 p =
      some (.ok (make_callback_dictionary p STATUS_PENDING
        (Val.str ("File upload still pending after more than " ++ toString MAX_WAIT ++
          " seconds. Status URL: " ++ su)))) := by
  constructor
  · have hterm := pollLoop_terminal env1.progress env1.expired su r2 (Val.str "completed")
      2 0 fuel1
      (fun j hj => by
        have hj01 : j = 0 ∨ j = 1 := by omega
        rcases hj01 with rfl | rfl
        · simp only [Nat.zero_add]
          exact ⟨⟨r0, Val.str "queued", h0, hw0, by decide⟩, he0⟩
        · simp only [Nat.zero_add]
          exact ⟨⟨r1, Val.str "running", h1, hw1, by decide⟩, he1⟩)
      (by simpa using h2) hw2 (by decide) hf1
    have hfd : fetch_descriptor env1.pullFile r2 = .ok (json_dumps fd) := by
      simp [fetch_descriptor, dictGetItem_of_get r2 "results" (Val.dict resd) hres,
        valGetItem, dictGetItem_of_get resd "id" fid hid, hpf, ok_bind, pure_eq_ok]
    exact poll_terminal_eq env1 fuel1 p su r2 (Val.str "completed") _ hsu hterm
      (classify_completed env1.pullFile env1.cb p (pyGet? p "callback_url") r2
        (Val.str "completed") _ (by decide) hfd)
  · have hpend := pollLoop_pending env2.progress env2.expired su k 0 fuel2
      (fun j hj => by simpa using hnt j hj)
      (fun j hj => by simpa using hex j hj)
      (by simpa using hek) hf2
    rw [poll_loop_error_eq env2 fuel2 p su _ hsu hpend]
    rw [poll_handler_pending]

/-- C3 witness: concrete queued / running / completed and
always-nonterminal environments. -/
theorem C3_ready_within_budget_pending_on_timeout_witness :
    poll
        ⟨fun i => if i == 0 then .ok [("workflow_state", Val.str "queued")]
          else if i == 1 then .ok [("workflow_state", Val.str "running")]
          else .ok [("workflow_state", Val.str "completed"),
            ("results", Val.dict [("id", Val.int 7)])],
          fun _ => false,
          fun _ => .ok [Val.dict [("id", Val.int 7), ("display_name", Val.str "clip.mp4")]],
          .ok 200⟩ 5 [("status_url", Val.str "https://stat")] =
      some (.ok (make_callback_dictionary [("status_url", Val.str "https://stat")] STATUS_READY
        (Val.str (json_dumps (Val.dict [("id", Val.int 7),
          ("display_name", Val.str "clip.mp4")]))))) ∧
    poll
        ⟨fun _ => .ok [("workflow_state", Val.str "queued")], fun _ => true,
          fun _ => .ok [], .ok 200⟩ 1 [("status_url", Val.str "https://stat")] =
      some (.ok (make_callback_dictionary [("status_url", Val.str "https://stat")] STATUS_PENDING
        (Val.str ("File upload still pending after more than " ++ toString MAX_WAIT ++
          " seconds. Status URL: " ++ "https://stat")))) :=
  C3_ready_within_budget_pending_on_timeout
    [("status_url", Val.str "https://stat")] "https://stat" rfl
    ⟨fun i => if i == 0 then .ok [("workflow_state", Val.str "queued")]
      else if i == 1 then .ok [("workflow_state", Val.str "running")]
      else .ok [("workflow_state", Val.str "completed"),
        ("results", Val.dict [("id", Val.int 7)])],
      fun _ => false,
      fun _ => .ok [Val.dict [("id", Val.int 7), ("display_name", Val.str "clip.mp4")]],
      .ok 200⟩
    [("workflow_state", Val.str "queued")] [("workflow_state", Val.str "running")]
    [("workflow_state", Val.str "completed"), ("results", Val.dict [("id", Val.int 7)])]
    [("id", Val.int 7)] (Val.int 7)
    (Val.dict [("id", Val.int 7), ("display_name", Val.str "clip.mp4")]) [] 5
    rfl rfl rfl rfl rfl rfl rfl rfl rfl rfl rfl (by decide)
    ⟨fun _ => .ok [("workflow_state", Val.str "queued")], fun _ => true,
      fun _ => .ok [], .ok 200⟩ 0 1
    (fun j _ => ⟨[("workflow_state", Val.str "queued")], Val.str "queued", rfl, rfl, by decide⟩)
    (fun j hj => absurd hj (by omega)) rfl (by decide)

/-- C4: when a fetch observes workflow state completed and the follow-up
file-descriptor fetch fails with any exception, the outcome is still
READY with the degraded message, and no exception escapes the poll
boundary. -/
theorem C4_descriptor_failure_still_ready
    (env : PollEnv) (p : PyDict) (su : String) (k fuel : Nat) (r : PyDict) (e : PyExc)
    (hsu : pyGet? p "status_url" = some (Val.str su))
    (hpre : ∀ j, j < k → nonterminalAt env.progress j ∧ env.expired j = false)
    (hk : env.progress k = .ok r)
    (hw : pyGet? r "workflow_state" = some (Val.str "completed"))
    (hfd : fetch_descriptor env.pullFile r = .error e)
    (hf : k < fuel) :
    poll env fuel p = some (.ok (make_callback_dictionary p STATUS_READY
      (Val.str "Error when trying to retrieve Canvas file descriptor for the upload."))) := by
  have hterm := pollLoop_terminal env.progress env.expired su r (Val.str "completed")
    k 0 fuel (fun j hj => by simpa using hpre j hj) (by simpa using hk) hw (by decide) hf
  exact poll_terminal_eq env fuel p su r (Val.str "completed") _ hsu hterm
    (classify_completed_degraded env.pullFile env.cb p (pyGet? p "callback_url") r
      (Val.str "completed") e (by decide) hfd)

/-- C4 witness: the completed response lacks the `results` field, so the
descriptor fetch raises KeyError, yet the run yields READY. -/
theorem C4_descriptor_failure_still_ready_witness :
    poll
        ⟨fun _ => .ok [("workflow_state", Val.str "completed")], fun _ => false,
          fun _ => .error (.other (Val.str "boom")), .ok 200⟩ 1
        [("status_url", Val.str "https://stat")] =
      some (.ok (make_callback_dictionary [("status_url", Val.str "https://stat")] STATUS_READY
        (Val.str "Error when trying to retrieve Canvas file descriptor for the upload."))) :=
  C4_descriptor_failure_still_ready
    ⟨fun _ => .ok [("workflow_state", Val.str "completed")], fun _ => false,
      fun _ => .error (.other (Val.str "boom")), .ok 200⟩
    [("status_url", Val.str "https://stat")] "https://stat" 0 1
    [("workflow_state", Val.str "completed")] (.keyError (.str "results"))
    rfl (fun j hj => absurd hj (by omega)) rfl rfl rfl (by decide)

/-- C5: an initiation response carrying the quota-exceeded message or a
quota-exceeded error substring yields QUOTA_EXCEEDED, with a status
message built from the quota and quota-used figures freshly fetched from
the remote quota endpoint. -/
theorem C5_quota_exceeded_with_fresh_figures
    (env : InitEnv) (p : PyDict) (fu dn em : String) (uid : Val) (resp qd : PyDict)
    (ev : Val) (q qu : Int)
    (hy : unpack3 p = .ok (fu, dn, em))
    (hg : get_canvas_user_id env.searchResults em = .ok uid)
    (hr : env.initResp = .ok resp)
    (hquota : quotaMsgHit resp = true ∨
      (quotaMsgHit resp = false ∧ pyGet? resp "error" = some ev ∧
        pyInStr "file size exceeds quota limits" ev = .ok true))
    (hqi : env.quotaInfo uid = .ok qd)
    (hq : pyGet? qd "quota" = some (Val.int q))
    (hqu : pyGet? qd "quota_used" = some (Val.int qu)) :
    initiate_upload env p = .ok (make_callback_dictionary p STATUS_QUOTA_EXCEEDED
      (Val.str ("File size exceeds quota. Quota: " ++ commaFmt q ++ " bytes. Quota used: " ++
        commaFmt qu ++ " bytes."))) := by
  have hmsg : make_quota_exceeded_message env.quotaInfo uid =
      .ok ("File size exceeds quota. Quota: " ++ commaFmt q ++ " bytes. Quota used: " ++
        commaFmt qu ++ " bytes.") := by
    simp [make_quota_exceeded_message, hqi, dictGetItem_of_get qd "quota" _ hq,
      dictGetItem_of_get qd "quota_used" _ hqu, ok_bind, pure_eq_ok]
  rcases hquota with hm | ⟨hm, herr, hin⟩
  · have hbody := body_quota_msg env.searchResults env.initResp env.dispatch p
      fu dn em uid resp hy hg hr hm
    simp only [initiate_upload, hbody]
    exact init_handler_quota env.quotaInfo env.cb p (pyGet? p "callback_url") _ uid _ hmsg
  · have hbody := body_quota_err env.searchResults env.initResp env.dispatch p
      fu dn em uid resp ev hy hg hr hm herr hin
    simp only [initiate_upload, hbody]
    exact init_handler_quota env.quotaInfo env.cb p (pyGet? p "callback_url") _ uid _ hmsg

/-- C5 witness: a concrete quota-exceeded initiation response with
quota figures 5000000 and 4900000. -/
theorem C5_quota_exceeded_with_fresh_figures_witness :
    initiate_upload
        ⟨fun _ => .ok [[("login_id", Val.str "a@b.com"), ("id", Val.int 3)]],
          .ok [("message", Val.str "file size exceeds quota")],
          fun _ => .ok [("quota", Val.int 5000000), ("quota_used", Val.int 4900000)],
          .ok ⟨202, false⟩, .ok 200⟩
        [("file_url", Val.str "http://f"), ("file_display_name", Val.str "clip.mp4"),
          ("user_email", Val.str "a@b.com")] =
      .ok (make_callback_dictionary
        [("file_url", Val.str "http://f"), ("file_display_name", Val.str "clip.mp4"),
          ("user_email", Val.str "a@b.com")] STATUS_QUOTA_EXCEEDED
        (Val.str ("File size exceeds quota. Quota: " ++ commaFmt 5000000 ++
          " bytes. Quota used: " ++ commaFmt 4900000 ++ " bytes."))) :=
  C5_quota_exceeded_with_fresh_figures
    ⟨fun _ => .ok [[("login_id", Val.str "a@b.com"), ("id", Val.int 3)]],
      .ok [("message", Val.str "file size exceeds quota")],
      fun _ => .ok [("quota", Val.int 5000000), ("quota_used", Val.int 4900000)],
      .ok ⟨202, false⟩, .ok 200⟩
    [("file_url", Val.str "http://f"), ("file_display_name", Val.str "clip.mp4"),
      ("user_email", Val.str "a@b.com")]
    "http://f" "clip.mp4" "a@b.com" (Val.int 3)
    [("message", Val.str "file size exceeds quota")]
    [("quota", Val.int 5000000), ("quota_used", Val.int 4900000)]
    Val.none 5000000 4900000
    rfl rfl rfl (Or.inl rfl) rfl rfl rfl

/-- Helper for concrete non-match facts on option-wrapped string values. -/
theorem str_some_ne (a b : String) (h : a ≠ b) :
    (some (Val.str a) : Option Val) ≠ some (Val.str b) := by
  intro hc
  injection hc with hc1
  injection hc1 with hc2
  exact h hc2

/-- C6: when the remote user search returns records none of which has a
`login_id` exactly equal to the supplied email, initiation ends in
ERROR (even if near matches are present), and an account id can only be
produced from a record whose `login_id` is exactly the email. -/
theorem C6_exact_login_match_required
    (env : InitEnv) (p : PyDict) (fu dn em : String) (rs : List PyDict)
    (hy : unpack3 p = .ok (fu, dn, em))
    (hsr : env.searchResults em = .ok rs)
    (hshape : ∀ u ∈ rs, ∃ l i, pyGet? u "login_id" = some l ∧ pyGet? u "id" = some i ∧
      l.hashable = true)
    (hnomatch : ∀ u ∈ rs, pyGet? u "login_id" ≠ some (Val.str em)) :
    initiate_upload env p = .ok (make_callback_dictionary p STATUS_ERROR
      (Val.str ("User " ++ em ++ " not found."))) ∧
    (∀ (rs' : List PyDict) (em' : String) (v : Val),
      find_exact_match_for_login_id rs' em' = .ok (some v) →
      ∃ u ∈ rs', pyGet? u "login_id" = some (Val.str em')) := by
  constructor
  · have hg := gcui_not_found env.searchResults em rs hsr hshape hnomatch
    have hbody := body_user_error env.searchResults env.initResp env.dispatch p
      fu dn em _ hy hg
    simp only [initiate_upload, hbody]
    exact init_handler_plain_err env.quotaInfo env.cb p (pyGet? p "callback_url") _ _
      (Or.inr (Or.inr (Or.inl ⟨_, rfl⟩)))
  · intro rs' em' v hfind
    unfold find_exact_match_for_login_id at hfind
    obtain ⟨ps, hps, hlook⟩ := bind_eq_ok hfind
    have hlook' : lookupLastVal ps (Val.str em') = some v :=
      (Except.ok.injEq _ _).mp hlook
    obtain ⟨q, hq, hqe⟩ := lookupLastVal_some ps (Val.str em') v hlook'
    obtain ⟨u, hu, hlu⟩ := buildLoginPairs_keys rs' ps hps q hq
    exact ⟨u, hu, by rw [hlu, scalarEq_str q.1 em' hqe]⟩

/-- C6 witness: search results containing a case-variant match and a
substring-extension match, but no exact match. -/
theorem C6_exact_login_match_required_witness :
    initiate_upload
        ⟨fun _ => .ok [[("login_id", Val.str "A@B.COM"), ("id", Val.int 9)],
            [("login_id", Val.str "a@b.com.extra"), ("id", Val.int 10)]],
          .ok [("progress", Val.dict [("url", Val.str "https://prog")])],
          fun _ => .ok [], .ok ⟨202, false⟩, .ok 200⟩
        [("file_url", Val.str "http://f"), ("file_display_name", Val.str "clip.mp4"),
          ("user_email", Val.str "a@b.com")] =
      .ok (make_callback_dictionary
        [("file_url", Val.str "http://f"), ("file_display_name", Val.str "clip.mp4"),
          ("user_email", Val.str "a@b.com")] STATUS_ERROR
        (Val.str ("User " ++ "a@b.com" ++ " not found."))) :=
  (C6_exact_login_match_required
    ⟨fun _ => .ok [[("login_id", Val.str "A@B.COM"), ("id", Val.int 9)],
        [("login_id", Val.str "a@b.com.extra"), ("id", Val.int 10)]],
      .ok [("progress", Val.dict [("url", Val.str "https://prog")])],
      fun _ => .ok [], .ok ⟨202, false⟩, .ok 200⟩
    [("file_url", Val.str "http://f"), ("file_display_name", Val.str "clip.mp4"),
      ("user_email", Val.str "a@b.com")]
    "http://f" "clip.mp4" "a@b.com"
    [[("login_id", Val.str "A@B.COM"), ("id", Val.int 9)],
      [("login_id", Val.str "a@b.com.extra"), ("id", Val.int 10)]]
    rfl rfl
    (by
      intro u hu
      rcases (by simpa using hu : u = [("login_id", Val.str "A@B.COM"), ("id", Val.int 9)] ∨
        u = [("login_id", Val.str "a@b.com.extra"), ("id", Val.int 10)]) with rfl | rfl
      · exact ⟨Val.str "A@B.COM", Val.int 9, rfl, rfl, rfl⟩
      · exact ⟨Val.str "a@b.com.extra", Val.int 10, rfl, rfl, rfl⟩)
    (by
      intro u hu
      rcases (by simpa using hu : u = [("login_id", Val.str "A@B.COM"), ("id", Val.int 9)] ∨
        u = [("login_id", Val.str "a@b.com.extra"), ("id", Val.int 10)]) with rfl | rfl
      · exact str_some_ne "A@B.COM" "a@b.com" (by decide)
      · exact str_some_ne "a@b.com.extra" "a@b.com" (by decide))).1

/-- C7 (amended): a JobParameters mapping that fails its entry point's
required-parameter validation yields a returned mapping with
`status_flag` ERROR; every key-value pair of the original mapping under
a key other than `status_flag` and `status_msg` is still present
unchanged, and every original key is still present, but original values
under `status_flag` / `status_msg` themselves are overwritten. -/
theorem C7_validation_error_preserves_other_keys :
    (∀ (env : InitEnv) (p : PyDict) (e : PyExc),
      (∀ s, pyGet? p "status_url" = some (Val.str s) → s = "") →
      unpack3 p = .error e →
      upload_to_canvas env p = .ok (make_callback_dictionary p STATUS_ERROR (excMsg e))) ∧
    (∀ (env : PollEnv) (fuel : Nat) (p : PyDict) (e : PyExc),
      validate p "status_url" = .error e →
      poll env fuel p = some (.ok (make_callback_dictionary p STATUS_ERROR (excMsg e)))) ∧
    (∀ (p : PyDict) (f : Int) (m : Val) (k : String),
      k ≠ "status_flag" → k ≠ "status_msg" →
      pyGet? (make_callback_dictionary p f m) k = pyGet? p k) ∧
    (∀ (p : PyDict) (f : Int) (m : Val) (k : String),
      (pyGet? p k).isSome → (pyGet? (make_callback_dictionary p f m) k).isSome) := by
  refine ⟨?_, ?_, ?_, ?_⟩
  · intro env p e hroute hup
    have hinit : upload_to_canvas env p = initiate_upload env p := by
      unfold upload_to_canvas
      cases hsu : pyGet? p "status_url" with
      | none => rfl
      | some v =>
        cases v with
        | str s =>
          have hs := hroute s hsu
          subst hs
          simp
        | int n => rfl
        | none => rfl
        | list xs => rfl
        | dict d => rfl
    rw [hinit]
    have hbody := body_validation_error env.searchResults env.initResp env.dispatch p e hup
    simp only [initiate_upload, hbody]
    rcases unpack3_error_class p e hup with ⟨m, rfl⟩ | ⟨m, rfl⟩
    · exact init_handler_plain_err _ _ _ _ _ _ (Or.inl ⟨m, rfl⟩)
    · exact init_handler_plain_err _ _ _ _ _ _ (Or.inr (Or.inl ⟨m, rfl⟩))
  · intro env fuel p e hv
    rw [poll_validation_error env fuel p e hv]
    rcases validate_error_class p "status_url" e hv with ⟨m, rfl⟩ | ⟨m, rfl⟩
    · rw [poll_handler_anticipated_err _ _ _ _ (by simp [pollAnticipated])
        (fun m h => by cases h)]
    · rw [poll_handler_anticipated_err _ _ _ _ (by simp [pollAnticipated])
        (fun m h => by cases h)]
  · intro p f m k h1 h2
    exact mkcb_get_other p f m k h1 h2
  · intro p f m k h
    exact mkcb_keeps_keys p f m k h

/-- C7 witness: a mapping missing every required key, run through both
entry points, plus the preservation facts at a concrete key. -/
theorem C7_validation_error_preserves_other_keys_witness :
    upload_to_canvas
        ⟨fun _ => .ok [], .ok [], fun _ => .ok [], .ok ⟨202, false⟩, .ok 200⟩
        [("extra", Val.int 42)] =
      .ok (make_callback_dictionary [("extra", Val.int 42)] STATUS_ERROR
        (excMsg (.missingParameter (Val.str "Missing \"file_url\" parameter.")))) ∧
    poll ⟨fun _ => .ok [], fun _ => false, fun _ => .ok [], .ok 200⟩ 1
        [("extra", Val.int 42)] =
      some (.ok (make_callback_dictionary [("extra", Val.int 42)] STATUS_ERROR
        (excMsg (.missingParameter (Val.str "Missing \"status_url\" parameter."))))) ∧
    pyGet? (make_callback_dictionary [("extra", Val.int 42)] 1 (Val.str "m")) "extra" =
      pyGet? [("extra", Val.int 42)] "extra" ∧
    (pyGet? (make_callback_dictionary [("extra", Val.int 42)] 1 (Val.str "m")) "extra").isSome :=
  ⟨C7_validation_error_preserves_other_keys.1
      ⟨fun _ => .ok [], .ok [], fun _ => .ok [], .ok ⟨202, false⟩, .ok 200⟩
      [("extra", Val.int 42)] _ (fun s h => Option.noConfusion h) rfl,
   C7_validation_error_preserves_other_keys.2.1
      ⟨fun _ => .ok [], fun _ => false, fun _ => .ok [], .ok 200⟩ 1
      [("extra", Val.int 42)] _ rfl,
   C7_validation_error_preserves_other_keys.2.2.1
      [("extra", Val.int 42)] 1 (Val.str "m") "extra" (by decide) (by decide),
   C7_validation_error_preserves_other_keys.2.2.2
      [("extra", Val.int 42)] 1 (Val.str "m") "extra" rfl⟩

/-- C7 counterexample: a parameter mapping already carrying
`status_flag = 4` and missing `status_url` is answered by the Poller
with `status_flag` overwritten to 1, so the original key-value pair is
not present unchanged in the result. -/
theorem C7_counterexample :
    pyGet? [("status_flag", Val.int 4)] "status_flag" = some (Val.int 4) ∧
    poll ⟨fun _ => .ok [], fun _ => false, fun _ => .ok [], .ok 200⟩ 1
        [("status_flag", Val.int 4)] =
      some (.ok [("status_flag", Val.int 1),
        ("status_msg", Val.str "Missing \"status_url\" parameter.")]) ∧
    pyGet? [("status_flag", Val.int 1),
        ("status_msg", Val.str "Missing \"status_url\" parameter.")] "status_flag" =
      some (Val.int 1) ∧
    (Val.int 1 ≠ Val.int 4) := by
  refine ⟨rfl, rfl, rfl, ?_⟩
  intro h
  injection h with h1
  exact absurd h1 (by decide)

theorem init_handler_cb_inv (qi : Val → Except PyExc PyDict) (t1 t2 : Except PyExc Int)
    (p : PyDict) (cu : Option Val) (pr : PyExc × Option Val) :
    initiate_upload_handler qi t1 p cu pr = initiate_upload_handler qi t2 p cu pr := by
  obtain ⟨e, uid?⟩ := pr
  cases e with
  | fileSizeExceedsQuota m =>
    cases uid? with
    | none => rfl
    | some uid =>
      cases hq : make_quota_exceeded_message qi uid with
      | error e' => simp [initiate_upload_handler, hq]
      | ok msg => simp [initiate_upload_handler, hq, mcp_ok, ok_bind]
  | missingParameter m => simp [initiate_upload_handler, mcp_ok, ok_bind]
  | parameterType m => simp [initiate_upload_handler, mcp_ok, ok_bind]
  | userNotFound m => simp [initiate_upload_handler, mcp_ok, ok_bind]
  | canvasUpload m => simp [initiate_upload_handler, mcp_ok, ok_bind]
  | lambdaCall m => simp [initiate_upload_handler, mcp_ok, ok_bind]
  | uploadDelegation m => simp [initiate_upload_handler, mcp_ok, ok_bind]
  | uploadTimeout m => simp [initiate_upload_handler, mcp_ok, ok_bind]
  | keyError m => simp [initiate_upload_handler, mcp_ok, ok_bind]
  | typeError m => simp [initiate_upload_handler, mcp_ok, ok_bind]
  | indexError m => simp [initiate_upload_handler, mcp_ok, ok_bind]
  | other m => simp [initiate_upload_handler, mcp_ok, ok_bind]

theorem classify_cb_inv (pf : Val → Except PyExc (List Val)) (t1 t2 : Except PyExc Int)
    (p : PyDict) (cu : Option Val) (r : PyDict) (w : Val) :
    classify_end_state pf t1 p cu r w = classify_end_state pf t2 p cu r w := by
  simp [classify_end_state, mcp_ok, ok_bind]

theorem poll_handler_cb_inv (t1 t2 : Except PyExc Int) (p : PyDict) (cu : Option Val)
    (e : PyExc) :
    poll_handler t1 p cu e = poll_handler t2 p cu e := by
  cases e <;> simp [poll_handler, mcp_ok, ok_bind]

/-- C8: the Callback Reporter never raises, whatever the callback URL
value and transport outcome; and the result mapping computed by either
entry point is identical whether or not callback delivery succeeds. -/
theorem C8_callback_never_raises_result_unaffected :
    (∀ (u : Option Val) (d : PyDict) (t : Except PyExc Int),
      make_callback_post u d t = .ok ()) ∧
    (∀ (sr : String → Except PyExc (List PyDict)) (ir : Except PyExc PyDict)
      (qi : Val → Except PyExc PyDict) (disp : Except PyExc DispatchResp)
      (t1 t2 : Except PyExc Int) (p : PyDict),
      initiate_upload ⟨sr, ir, qi, disp, t1⟩ p = initiate_upload ⟨sr, ir, qi, disp, t2⟩ p) ∧
    (∀ (pr : Nat → Except PyExc PyDict) (ex : Nat → Bool)
      (pf : Val → Except PyExc (List Val)) (t1 t2 : Except PyExc Int) (fuel : Nat)
      (p : PyDict),
      poll ⟨pr, ex, pf, t1⟩ fuel p = poll ⟨pr, ex, pf, t2⟩ fuel p) := by
  refine ⟨mcp_ok, ?_, ?_⟩
  · intro sr ir qi disp t1 t2 p
    unfold initiate_upload
    cases hb : initiate_upload_body sr ir disp p with
    | ok d => rfl
    | error pr => exact init_handler_cb_inv qi t1 t2 p (pyGet? p "callback_url") pr
  · intro pr ex pf t1 t2 fuel p
    unfold poll
    simp only []
    cases hv : validate p "status_url" with
    | error e =>
      simp only [Option.some.injEq]
      exact poll_handler_cb_inv t1 t2 p (pyGet? p "callback_url") e
    | ok su =>
      cases hl : pollLoop pr ex su fuel 0 with
      | none => simp only [hl]
      | some y =>
        cases y with
        | error e =>
          simp only [hl, Option.some.injEq]
          exact poll_handler_cb_inv t1 t2 p (pyGet? p "callback_url") e
        | ok rw0 =>
          obtain ⟨r, w⟩ := rw0
          simp only [hl]
          rw [classify_cb_inv pf t1 t2 p (pyGet? p "callback_url") r w]
          cases hc : classify_end_state pf t2 p (pyGet? p "callback_url") r w with
          | ok d => simp only [hc]
          | error e =>
            simp only [hc, Option.some.injEq]
            exact poll_handler_cb_inv t1 t2 p (pyGet? p "callback_url") e

/-- C9 (amended): `initiate_upload` and `poll` intercept exceptions at
their boundaries, so every normal return is a well-formed mapping
carrying `status_flag` and `status_msg`, and `poll` lets an exception
escape only through the report-and-re-raise policy for exceptions
outside its anticipated classes.  (The Orchestrator's polling-delegation
branch and the quota handler's own remote fetch are not covered: they
can let exceptions escape unreported, see the counterexample.) -/
theorem C9_boundary_interception :
    (∀ (env : InitEnv) (p d : PyDict), initiate_upload env p = .ok d →
      (pyGet? d "status_flag").isSome ∧ (pyGet? d "status_msg").isSome) ∧
    (∀ (env : PollEnv) (fuel : Nat) (p d : PyDict), poll env fuel p = some (.ok d) →
      (pyGet? d "status_flag").isSome ∧ (pyGet? d "status_msg").isSome) ∧
    (∀ (env : PollEnv) (fuel : Nat) (p : PyDict) (e : PyExc),
      poll env fuel p = some (.error e) → pollAnticipated e = false) := by
  refine ⟨?_, ?_, ?_⟩
  · intro env p d h
    unfold initiate_upload at h
    cases hb : initiate_upload_body env.searchResults env.initResp env.dispatch p with
    | ok d' =>
      rw [hb] at h
      simp only [] at h
      have hdd : d = d' := ((Except.ok.injEq _ _).mp h).symm
      obtain ⟨d0, su, hd⟩ := body_ok_shape env.searchResults env.initResp env.dispatch p d'
        hb
      rw [hdd, hd]
      exact ⟨by rw [mkcb_get_flag]; rfl, by rw [mkcb_get_msg]; rfl⟩
    | error pr =>
      rw [hb] at h
      simp only [] at h
      obtain ⟨f, m, hd⟩ := init_handler_ok_shape env.quotaInfo env.cb p
        (pyGet? p "callback_url") pr d h
      rw [hd]
      exact ⟨by rw [mkcb_get_flag]; rfl, by rw [mkcb_get_msg]; rfl⟩
  · intro env fuel p d h
    rcases poll_some_shape env fuel p _ h with ⟨d', hd', f, m, hmk⟩ | ⟨e, he, _⟩
    · have hdd : d = make_callback_dictionary p f m := by
        rw [← hmk, (Except.ok.injEq _ _).mp hd'.symm]
      rw [hdd]
      exact ⟨by rw [mkcb_get_flag]; rfl, by rw [mkcb_get_msg]; rfl⟩
    · exact absurd he (by simp)
  · intro env fuel p e h
    rcases poll_some_shape env fuel p _ h with ⟨d', hd', _⟩ | ⟨e', he', hant⟩
    · exact absurd hd' (by simp)
    · have he2 : e = e' := (Except.error.injEq _ _).mp he'
      rw [he2]
      exact hant

/-- C9 witness: both entry points applied on a mapping missing every
required key, and a poll run whose progress fetch raises a transport
exception (re-raised as unanticipated). -/
theorem C9_boundary_interception_witness :
    ((pyGet? ([("status_flag", Val.int 1),
        ("status_msg", Val.str "Missing \"file_url\" parameter.")] : PyDict)
        "status_flag").isSome ∧
      (pyGet? ([("status_flag", Val.int 1),
        ("status_msg", Val.str "Missing \"file_url\" parameter.")] : PyDict)
        "status_msg").isSome) ∧
    ((pyGet? ([("status_flag", Val.int 1),
        ("status_msg", Val.str "Missing \"status_url\" parameter.")] : PyDict)
        "status_flag").isSome ∧
      (pyGet? ([("status_flag", Val.int 1),
        ("status_msg", Val.str "Missing \"status_url\" parameter.")] : PyDict)
        "status_msg").isSome) ∧
    pollAnticipated (.other (Val.str "boom")) = false :=
  ⟨C9_boundary_interception.1
      ⟨fun _ => .ok [], .ok [], fun _ => .ok [], .ok ⟨202, false⟩, .ok 200⟩ [] _ rfl,
   C9_boundary_interception.2.1
      ⟨fun _ => .ok [], fun _ => false, fun _ => .ok [], .ok 200⟩ 1 [] _ rfl,
   C9_boundary_interception.2.2
      ⟨fun _ => .error (.other (Val.str "boom")), fun _ => false, fun _ => .ok [], .ok 200⟩ 1
      [("status_url", Val.str "https://stat")] _ rfl⟩

/-- C9 counterexample: the Orchestrator's delegation branch has no
try/except, so a rejected dispatch makes the anticipated
LambdaCallException escape `upload_to_canvas` uncaught, without any
reporting, and the caller receives an exception instead of a result
mapping. -/
theorem C9_counterexample :
    upload_to_canvas
        ⟨fun _ => .ok [], .ok [], fun _ => .ok [], .ok ⟨500, false⟩, .ok 200⟩
        [("status_url", Val.str "https://stat")] =
      .error (.lambdaCall (Val.str
        "Lambda call returned bad status code: \x7b\"StatusCode\": 500\x7d ")) := rfl

theorem classify_error_shape (pf : Val → Except PyExc (List Val)) (cbT : Except PyExc Int)
    (p : PyDict) (cu : Option Val) (r : PyDict) (w : Val) (e : PyExc)
    (h : classify_end_state pf cbT p cu r w = .error e) :
    e = .keyError (.str "message") := by
  by_cases h1 : w.eqStr "completed" = true
  · cases h2 : fetch_descriptor pf r with
    | ok s =>
      rw [classify_completed pf cbT p cu r w s h1 h2] at h
      exact absurd h (by simp)
    | error e' =>
      rw [classify_completed_degraded pf cbT p cu r w e' h1 h2] at h
      exact absurd h (by simp)
  · have h1' : w.eqStr "completed" = false := by
      cases hb : w.eqStr "completed" with
      | true => exact absurd hb h1
      | false => rfl
    by_cases h2 : w.eqStr "failed" = true
    · cases h3 : pyGet? r "message" with
      | some m =>
        rw [classify_failed pf cbT p cu r w m h1' h2 h3] at h
        exact absurd h (by simp)
      | none =>
        rw [classify_failed_nomsg pf cbT p cu r w h1' h2 h3] at h
        exact ((Except.error.injEq _ _).mp h).symm
    · have h2' : w.eqStr "failed" = false := by
        cases hb : w.eqStr "failed" with
        | true => exact absurd hb h2
        | false => rfl
      rw [classify_unknown pf cbT p cu r w h1' h2'] at h
      exact absurd h (by simp)

/-- C10: the wait-budget check runs only after a fetch that returned a
nonterminal workflow state, so a fetch returning a terminal state always
yields the terminal classification (READY or ERROR as a mapping flag, or
the re-raised malformed-failed-response exception) and never PENDING,
even when the budget had already expired before that fetch (the
`expired` history at and after the terminal fetch is unconstrained). -/
theorem C10_terminal_state_never_pending
    (env : PollEnv) (p : PyDict) (su : String) (k fuel : Nat) (r : PyDict) (w : Val)
    (hsu : pyGet? p "status_url" = some (Val.str su))
    (hpre : ∀ j, j < k → nonterminalAt env.progress j ∧ env.expired j = false)
    (hk : env.progress k = .ok r)
    (hw : pyGet? r "workflow_state" = some w)
    (hterm : (w.eqStr "queued" || w.eqStr "running") = false)
    (hf : k < fuel) :
    poll env fuel p ≠ Option.none ∧
    (∀ d, poll env fuel p = some (.ok d) →
      pyGet? d "status_flag" = some (Val.int STATUS_READY) ∨
      pyGet? d "status_flag" = some (Val.int STATUS_ERROR)) ∧
    (∀ m, poll env fuel p ≠ some (.error (.uploadTimeout m))) := by
  have hterm' := pollLoop_terminal env.progress env.expired su r w k 0 fuel
    (fun j hj => by simpa using hpre j hj) (by simpa using hk) hw hterm hf
  cases hc : classify_end_state env.pullFile env.cb p (pyGet? p "callback_url") r w with
  | ok d' =>
    have hp := poll_terminal_eq env fuel p su r w d' hsu hterm' hc
    refine ⟨(by rw [hp]; exact fun hcon => Option.noConfusion hcon), ?_, ?_⟩
    · intro d hd
      rw [hp] at hd
      have hdd : d' = d := by
        have := (Option.some.injEq _ _).mp hd
        exact (Except.ok.injEq _ _).mp this
      rcases classify_ok_shape env.pullFile env.cb p (pyGet? p "callback_url") r w d' hc
        with ⟨m, hm⟩ | ⟨m, hm⟩
      · exact Or.inl (by rw [← hdd, hm, mkcb_get_flag])
      · exact Or.inr (by rw [← hdd, hm, mkcb_get_flag])
    · intro m hcon
      rw [hp] at hcon
      have := (Option.some.injEq _ _).mp hcon
      exact absurd this (by simp)
  | error e =>
    have he := classify_error_shape env.pullFile env.cb p (pyGet? p "callback_url") r w e hc
    have hp := poll_terminal_err_eq env fuel p su r w e hsu hterm' hc
    rw [he] at hp
    rw [poll_handler_reraise env.cb p (pyGet? p "callback_url") _ (by simp [pollAnticipated])]
      at hp
    refine ⟨(by rw [hp]; exact fun hcon => Option.noConfusion hcon), ?_, ?_⟩
    · intro d hd
      rw [hp] at hd
      have := (Option.some.injEq _ _).mp hd
      exact absurd this (by simp)
    · intro m hcon
      rw [hp] at hcon
      have h1 := (Option.some.injEq _ _).mp hcon
      have h2 := (Except.error.injEq _ _).mp h1
      cases h2

/-- C10 witness: the budget is already expired at every step, yet the
first fetch reports completed and the run yields READY, not PENDING. -/
theorem C10_terminal_state_never_pending_witness :
    pyGet? (make_callback_dictionary [("status_url", Val.str "https://stat")] STATUS_READY
      (Val.str "Error when trying to retrieve Canvas file descriptor for the upload."))
      "status_flag" = some (Val.int STATUS_READY) := by
  have h := C10_terminal_state_never_pending
    ⟨fun _ => .ok [("workflow_state", Val.str "completed")], fun _ => true,
      fun _ => .error (.other (Val.str "boom")), .ok 200⟩
    [("status_url", Val.str "https://stat")] "https://stat" 0 1
    [("workflow_state", Val.str "completed")] (Val.str "completed")
    rfl (fun j hj => absurd hj (by omega)) rfl rfl (by decide) (by decide)
  have hrun : poll
      ⟨fun _ => .ok [("workflow_state", Val.str "completed")], fun _ => true,
        fun _ => .error (.other (Val.str "boom")), .ok 200⟩ 1
      [("status_url", Val.str "https://stat")] =
      some (.ok (make_callback_dictionary [("status_url", Val.str "https://stat")]
        STATUS_READY
        (Val.str "Error when trying to retrieve Canvas file descriptor for the upload."))) :=
    rfl
  rcases h.2.1 _ hrun with hflag | hflag
  · exact hflag
  · rw [mkcb_get_flag] at hflag
    have := (Option.some.injEq _ _).mp hflag
    injection this with hint
    exact absurd hint (by decide)

end MovieUpload
